import Mathlib

/-!
# Telemetry lifecycle core (`src/main/telemetry/telemetry.c`)

A shallow embedding of the telemetry orchestration module of the flight
controller and a verification of its lifecycle properties.

The module-level statics of the C file become the fields of `Module`; every C
function becomes a computation in the monad `Tel`, which threads the statics,
reads the answers of the external collaborators from `Inputs`, and records each
call made to a protocol provider together with a snapshot of the statics and of
the collaborators' answers at the moment of the call.
-/

namespace Telemetry

/-! ## Data model -/

/-- Modelled from the spec: the tag of the FrSky provider; the enumeration
`telemetryProvider_e` lives in `telemetry/telemetry.h`, which is not part of the
sources, so the three tags are taken as three distinct numbers. -/
def TELEMETRY_PROVIDER_FRSKY : Nat := 0

/-- Modelled from the spec: the tag of the HoTT provider (see
`TELEMETRY_PROVIDER_FRSKY`). -/
def TELEMETRY_PROVIDER_HOTT : Nat := 1

/-- Modelled from the spec: the tag of the MSP provider (see
`TELEMETRY_PROVIDER_FRSKY`). -/
def TELEMETRY_PROVIDER_MSP : Nat := 2

/-- Modelled from the spec: the index of the telemetry box in the RC
switch-position array `rcOptions`; the enumeration that defines it is not part
of the sources.  No result below depends on its value. -/
def BOXTELEMETRY : Nat := 20

/-- The fields of `telemetryConfig_t` that `telemetry.c` reads.  The provider
field holds an arbitrary tag, so that values outside the three known providers
can be represented. -/
structure telemetryConfig_t where
  telemetry_provider : Nat
  telemetry_switch : Bool
deriving DecidableEq, Repr

/-- The module-level statics of `telemetry.c` (lines 22-26).  The pointer
`telemetryConfig` is represented by the record it points to: the entry points
are only meaningful once `useTelemetryConfig` has bound it. -/
structure Module where
  isTelemetryConfigurationValid : Bool
  telemetryEnabled : Bool
  telemetryPortIsShared : Bool
  telemetryConfig : telemetryConfig_t
deriving DecidableEq, Repr

/-- The state of the statics at program start, with the configuration record
`cfg` bound: all three flags are `false` (C zero-initialisation). -/
def initialModule (cfg : telemetryConfig_t) : Module :=
  { isTelemetryConfigurationValid := false
    telemetryEnabled := false
    telemetryPortIsShared := false
    telemetryConfig := cfg }

/-- The answers of the external collaborators at the time of one call into the
module: `feature(FEATURE_TELEMETRY)`, `canOpenSerialPort(FUNCTION_TELEMETRY)`,
`isSerialPortFunctionShared(FUNCTION_TELEMETRY, FUNCTION_MSP)`, the array
`rcOptions`, the flag `f.ARMED`, and the baud rates reported by the FrSky and
HoTT providers.  The spec gives the armed flag and the switch positions as
booleans. -/
structure Inputs where
  featureTelemetry : Bool
  canOpenSerialPortTelemetry : Bool
  isSerialPortFunctionShared : Bool
  rcOptions : Nat → Bool
  ARMED : Bool
  frSkyBaudRate : Nat
  hottBaudRate : Nat

/-- The provider functions that `telemetry.c` calls. -/
inductive ProviderCall where
  | initFrSkyTelemetry
  | initHoTTTelemetry
  | initMSPTelemetry
  | getFrSkyTelemetryProviderBaudRate
  | getHoTTTelemetryProviderBaudRate
  | configureFrSkyTelemetryPort
  | configureHoTTTelemetryPort
  | freeFrSkyTelemetryPort
  | freeHoTTTelemetryPort
  | handleFrSkyTelemetry
  | handleHoTTTelemetry
  | handleMSPTelemetry
deriving DecidableEq, Repr

/-- One recorded provider call, with the statics and the collaborators'
answers as they were when the call was made. -/
structure Emitted where
  call : ProviderCall
  state : Module
  inputs : Inputs

/-- The result of running a computation: returned value, statics afterwards,
and the provider calls made, in order. -/
structure Outcome (α : Type) where
  val : α
  state : Module
  trace : List Emitted

/-- Computations of the module: they read the collaborators, read and write the
statics, and call providers. -/
def Tel (α : Type) : Type := Inputs → Module → Outcome α

namespace Tel

/-- Return a value without touching anything. -/
def ret {α : Type} (a : α) : Tel α := fun _ s => ⟨a, s, []⟩

/-- Sequencing: the second computation starts from the statics left by the
first, and the traces are concatenated. -/
def seq {α β : Type} (x : Tel α) (f : α → Tel β) : Tel β := fun i s =>
  let r := x i s
  let q := f r.val i r.state
  ⟨q.val, q.state, r.trace ++ q.trace⟩

instance : Monad Tel where
  pure := ret
  bind := seq

/-- Read the statics. -/
def getModule : Tel Module := fun _ s => ⟨s, s, []⟩

/-- Read the collaborators. -/
def getInputs : Tel Inputs := fun i s => ⟨i, s, []⟩

/-- Overwrite the statics. -/
def setModule (s : Module) : Tel Unit := fun _ _ => ⟨(), s, []⟩

/-- Call a provider function: the call is recorded with the current statics
and collaborator answers. -/
def emit (c : ProviderCall) : Tel Unit := fun i s => ⟨(), s, [⟨c, s, i⟩]⟩

end Tel

open Tel

/-- The provider calls of a trace, without the snapshots. -/
def calls (t : List Emitted) : List ProviderCall := t.map Emitted.call

/-! ## The functions of `telemetry.c` -/

/-- Lines 28-31. -/
def useTelemetryConfig (telemetryConfigToUse : telemetryConfig_t) : Tel Unit := do
  let m ← getModule
  setModule { m with telemetryConfig := telemetryConfigToUse }

/-- Lines 33-36. -/
def isTelemetryProviderFrSky : Tel Bool := do
  let m ← getModule
  return m.telemetryConfig.telemetry_provider == TELEMETRY_PROVIDER_FRSKY

/-- Lines 38-41. -/
def isTelemetryProviderHoTT : Tel Bool := do
  let m ← getModule
  return m.telemetryConfig.telemetry_provider == TELEMETRY_PROVIDER_HOTT

/-- Lines 43-46. -/
def isTelemetryProviderMSP : Tel Bool := do
  let m ← getModule
  return m.telemetryConfig.telemetry_provider == TELEMETRY_PROVIDER_MSP

/-- Lines 48-59. -/
def canUseTelemetryWithCurrentConfiguration : Tel Bool := do
  if !(← getInputs).featureTelemetry then
    return false
  if !(← getInputs).canOpenSerialPortTelemetry then
    return false
  return true

/-- Lines 81-93. -/
def determineNewTelemetryEnabledState : Tel Bool := do
  let mut enabled := true
  if (← getModule).telemetryPortIsShared then
    if (← getModule).telemetryConfig.telemetry_switch then
      enabled := (← getInputs).rcOptions BOXTELEMETRY
    else
      enabled := (← getInputs).ARMED
  return enabled

/-- Lines 95-98. -/
def shouldChangeTelemetryStateNow (newState : Bool) : Tel Bool := do
  return newState != (← getModule).telemetryEnabled

/-- Lines 100-110. -/
def getTelemetryProviderBaudRate : Tel Nat := do
  if (← isTelemetryProviderFrSky) then
    emit .getFrSkyTelemetryProviderBaudRate
    return (← getInputs).frSkyBaudRate
  if (← isTelemetryProviderHoTT) then
    emit .getHoTTTelemetryProviderBaudRate
    return (← getInputs).hottBaudRate
  return 0

/-- Lines 112-121. -/
def configureTelemetryPort : Tel Unit := do
  if (← isTelemetryProviderFrSky) then
    emit .configureFrSkyTelemetryPort
  if (← isTelemetryProviderHoTT) then
    emit .configureHoTTTelemetryPort

/-- Lines 124-133. -/
def freeTelemetryPort : Tel Unit := do
  if (← isTelemetryProviderFrSky) then
    emit .freeFrSkyTelemetryPort
  if (← isTelemetryProviderHoTT) then
    emit .freeHoTTTelemetryPort

/-- Lines 135-153. -/
def checkTelemetryState : Tel Unit := do
  if !(← getModule).isTelemetryConfigurationValid then
    return
  let newEnabledState ← determineNewTelemetryEnabledState
  if !(← shouldChangeTelemetryStateNow newEnabledState) then
    return
  if newEnabledState then
    configureTelemetryPort
  else
    freeTelemetryPort
  let m ← getModule
  setModule { m with telemetryEnabled := newEnabledState }

/-- Lines 61-79. -/
def initTelemetry : Tel Unit := do
  let shared := (← getInputs).isSerialPortFunctionShared
  let m ← getModule
  setModule { m with telemetryPortIsShared := shared }
  let valid ← canUseTelemetryWithCurrentConfiguration
  let m ← getModule
  setModule { m with isTelemetryConfigurationValid := valid }
  if (← isTelemetryProviderFrSky) then
    emit .initFrSkyTelemetry
  if (← isTelemetryProviderHoTT) then
    emit .initHoTTTelemetry
  if (← isTelemetryProviderMSP) then
    emit .initMSPTelemetry
  checkTelemetryState

/-- Lines 155-171.  The C condition evaluates the State Evaluator only when
the validity flag is true; the evaluator writes nothing and calls nothing, so
evaluating it first is the same computation. -/
def handleTelemetry : Tel Unit := do
  if !(← getModule).isTelemetryConfigurationValid || !(← determineNewTelemetryEnabledState) then
    return
  if (← isTelemetryProviderFrSky) then
    emit .handleFrSkyTelemetry
  if (← isTelemetryProviderHoTT) then
    emit .handleHoTTTelemetry
  if (← isTelemetryProviderMSP) then
    emit .handleMSPTelemetry

/-! ## Entry points and call sequences -/

/-- The functions of the module that a host can call after the configuration
has been bound. -/
inductive EntryPoint where
  | initTelemetry
  | getTelemetryProviderBaudRate
  | checkTelemetryState
  | freeTelemetryPort
  | handleTelemetry
deriving DecidableEq, Repr

/-- The computation behind an entry point; a returned baud rate is dropped. -/
def EntryPoint.run : EntryPoint → Tel Unit
  | .initTelemetry => Telemetry.initTelemetry
  | .getTelemetryProviderBaudRate => do
      let _ ← Telemetry.getTelemetryProviderBaudRate
      return
  | .checkTelemetryState => Telemetry.checkTelemetryState
  | .freeTelemetryPort => Telemetry.freeTelemetryPort
  | .handleTelemetry => Telemetry.handleTelemetry

/-- Run a sequence of entry-point calls, each under its own collaborator
answers, from the statics `s`. -/
def runCalls : List (EntryPoint × Inputs) → Module → Outcome Unit
  | [], s => ⟨(), s, []⟩
  | (e, i) :: rest, s =>
    let r := e.run i s
    let q := runCalls rest r.state
    ⟨(), q.state, r.trace ++ q.trace⟩

/-- Successive `checkTelemetryState` calls, one per element of `is`. -/
def checkCalls (is : List Inputs) : List (EntryPoint × Inputs) :=
  is.map fun i => (EntryPoint.checkTelemetryState, i)

/-- The lifecycle entry points: initialisation, state check and service. -/
def EntryPoint.isLifecycle : EntryPoint → Bool
  | .initTelemetry => true
  | .checkTelemetryState => true
  | .handleTelemetry => true
  | _ => false

/-! ## Vocabulary of the properties -/

/-- The Desired State: the value returned by the State Evaluator. -/
def desired (i : Inputs) (s : Module) : Bool := (determineNewTelemetryEnabledState i s).val

/-- Acquire calls: a provider's configure-port. -/
def isAcquire : ProviderCall → Bool
  | .configureFrSkyTelemetryPort => true
  | .configureHoTTTelemetryPort => true
  | _ => false

/-- Release calls: a provider's free-port. -/
def isRelease : ProviderCall → Bool
  | .freeFrSkyTelemetryPort => true
  | .freeHoTTTelemetryPort => true
  | _ => false

/-- Service calls: a provider's handle. -/
def isHandle : ProviderCall → Bool
  | .handleFrSkyTelemetry => true
  | .handleHoTTTelemetry => true
  | .handleMSPTelemetry => true
  | _ => false

/-- The provider variant a provider function belongs to. -/
def providerOf : ProviderCall → Nat
  | .initFrSkyTelemetry => TELEMETRY_PROVIDER_FRSKY
  | .getFrSkyTelemetryProviderBaudRate => TELEMETRY_PROVIDER_FRSKY
  | .configureFrSkyTelemetryPort => TELEMETRY_PROVIDER_FRSKY
  | .freeFrSkyTelemetryPort => TELEMETRY_PROVIDER_FRSKY
  | .handleFrSkyTelemetry => TELEMETRY_PROVIDER_FRSKY
  | .initHoTTTelemetry => TELEMETRY_PROVIDER_HOTT
  | .getHoTTTelemetryProviderBaudRate => TELEMETRY_PROVIDER_HOTT
  | .configureHoTTTelemetryPort => TELEMETRY_PROVIDER_HOTT
  | .freeHoTTTelemetryPort => TELEMETRY_PROVIDER_HOTT
  | .handleHoTTTelemetry => TELEMETRY_PROVIDER_HOTT
  | .initMSPTelemetry => TELEMETRY_PROVIDER_MSP
  | .handleMSPTelemetry => TELEMETRY_PROVIDER_MSP

/-- Number of false-to-true edges of a sequence whose predecessor value is
`prev`. -/
def risingEdges (prev : Bool) : List Bool → Nat
  | [] => 0
  | d :: ds => (if prev = false ∧ d = true then 1 else 0) + risingEdges d ds

/-- Number of true-to-false edges of a sequence whose predecessor value is
`prev`. -/
def fallingEdges (prev : Bool) : List Bool → Nat
  | [] => 0
  | d :: ds => (if prev = true ∧ d = false then 1 else 0) + fallingEdges d ds

/-- Whether the port is held after the calls `cs`, when it was held (`held`)
or not before them. -/
def heldAfter (held : Bool) : List ProviderCall → Bool
  | [] => held
  | c :: cs => heldAfter (if isAcquire c then true else if isRelease c then false else held) cs

/-- Acquire and release calls alternate in `cs`: an acquire occurs only while
the port is not held and a release only while it is held, `held` telling
whether it is held before the first call. -/
def alternates (held : Bool) : List ProviderCall → Bool
  | [] => true
  | c :: cs =>
    if isAcquire c then !held && alternates true cs
    else if isRelease c then held && alternates false cs
    else alternates held cs

/-- A call made by the host during the life of the module: a configuration
change, which binds a new configuration record with `useTelemetryConfig`, or a
call of an entry point. -/
inductive HostCall where
  | useTelemetryConfig (cfg : telemetryConfig_t)
  | entry (e : EntryPoint)

/-- The computation behind a host call. -/
def HostCall.run : HostCall → Tel Unit
  | .useTelemetryConfig cfg => Telemetry.useTelemetryConfig cfg
  | .entry e => e.run

/-- Configuration changes and the lifecycle entry points. -/
def HostCall.isLifecycle : HostCall → Bool
  | .useTelemetryConfig _ => true
  | .entry e => e.isLifecycle

/-- Run a sequence of host calls, each under its own collaborator answers, from
the statics `s`. -/
def runHostCalls : List (HostCall × Inputs) → Module → Outcome Unit
  | [], s => ⟨(), s, []⟩
  | (c, i) :: rest, s =>
    let r := c.run i s
    let q := runHostCalls rest r.state
    ⟨(), q.state, r.trace ++ q.trace⟩

/-- The call is an `initTelemetry` that finds the configuration unusable while
the Enabled State is Enabled. -/
def unusableReinit (c : HostCall) (i : Inputs) (s : Module) : Bool :=
  match c with
  | .entry .initTelemetry =>
    s.telemetryEnabled && !(canUseTelemetryWithCurrentConfiguration i s).val
  | _ => false

/-- The call is a configuration change that replaces the provider while the
Enabled State is Enabled. -/
def providerReplaced (c : HostCall) (s : Module) : Bool :=
  match c with
  | .useTelemetryConfig cfg =>
    s.telemetryEnabled && (cfg.telemetry_provider != s.telemetryConfig.telemetry_provider)
  | _ => false

/-- No `initTelemetry` call of the sequence that finds the configuration
unusable is made while the Enabled State is Enabled. -/
def reinitSafe : List (HostCall × Inputs) → Module → Bool
  | [], _ => true
  | (c, i) :: rest, s => !unusableReinit c i s && reinitSafe rest (c.run i s).state

/-- No configuration change of the sequence replaces the provider while the
Enabled State is Enabled. -/
def providerKept : List (HostCall × Inputs) → Module → Bool
  | [], _ => true
  | (c, i) :: rest, s => !providerReplaced c s && providerKept rest (c.run i s).state

/-- The flag `h` (port held) agrees with the statics: with FrSky or HoTT
configured it is the Enabled State, with any other provider the port is not
held. -/
def heldMatches (s : Module) (h : Bool) : Prop :=
  ((s.telemetryConfig.telemetry_provider = TELEMETRY_PROVIDER_FRSKY ∨
      s.telemetryConfig.telemetry_provider = TELEMETRY_PROVIDER_HOTT) →
    h = s.telemetryEnabled) ∧
  (¬ (s.telemetryConfig.telemetry_provider = TELEMETRY_PROVIDER_FRSKY ∨
      s.telemetryConfig.telemetry_provider = TELEMETRY_PROVIDER_HOTT) → h = false)

instance (s : Module) (h : Bool) : Decidable (heldMatches s h) := by
  unfold heldMatches
  infer_instance

/-- The state `t` has the same Port-Shared flag, Configuration Validity Flag
and bound configuration as `s`. -/
def sameCachedFlags (s t : Module) : Prop :=
  t.telemetryPortIsShared = s.telemetryPortIsShared ∧
  t.isTelemetryConfigurationValid = s.isTelemetryConfigurationValid ∧
  t.telemetryConfig = s.telemetryConfig

instance (s t : Module) : Decidable (sameCachedFlags s t) := by
  unfold sameCachedFlags
  infer_instance

/-! ## Closed forms of the traces -/

/-- The calls made by `configureTelemetryPort` under `i` in the statics `s`. -/
def configureTrace (i : Inputs) (s : Module) : List Emitted :=
  (if s.telemetryConfig.telemetry_provider = TELEMETRY_PROVIDER_FRSKY
    then [⟨.configureFrSkyTelemetryPort, s, i⟩] else []) ++
  (if s.telemetryConfig.telemetry_provider = TELEMETRY_PROVIDER_HOTT
    then [⟨.configureHoTTTelemetryPort, s, i⟩] else [])

/-- The calls made by `freeTelemetryPort` under `i` in the statics `s`. -/
def freeTrace (i : Inputs) (s : Module) : List Emitted :=
  (if s.telemetryConfig.telemetry_provider = TELEMETRY_PROVIDER_FRSKY
    then [⟨.freeFrSkyTelemetryPort, s, i⟩] else []) ++
  (if s.telemetryConfig.telemetry_provider = TELEMETRY_PROVIDER_HOTT
    then [⟨.freeHoTTTelemetryPort, s, i⟩] else [])

/-- The provider initialisations made by `initTelemetry`. -/
def initTrace (i : Inputs) (s : Module) : List Emitted :=
  (if s.telemetryConfig.telemetry_provider = TELEMETRY_PROVIDER_FRSKY
    then [⟨.initFrSkyTelemetry, s, i⟩] else []) ++
  ((if s.telemetryConfig.telemetry_provider = TELEMETRY_PROVIDER_HOTT
    then [⟨.initHoTTTelemetry, s, i⟩] else []) ++
  (if s.telemetryConfig.telemetry_provider = TELEMETRY_PROVIDER_MSP
    then [⟨.initMSPTelemetry, s, i⟩] else []))

/-- The provider service calls made by `handleTelemetry` once past its guard. -/
def handleTrace (i : Inputs) (s : Module) : List Emitted :=
  (if s.telemetryConfig.telemetry_provider = TELEMETRY_PROVIDER_FRSKY
    then [⟨.handleFrSkyTelemetry, s, i⟩] else []) ++
  ((if s.telemetryConfig.telemetry_provider = TELEMETRY_PROVIDER_HOTT
    then [⟨.handleHoTTTelemetry, s, i⟩] else []) ++
  (if s.telemetryConfig.telemetry_provider = TELEMETRY_PROVIDER_MSP
    then [⟨.handleMSPTelemetry, s, i⟩] else []))

/-- The statics after the two flag assignments that open `initTelemetry`. -/
def afterInitFlags (i : Inputs) (s : Module) : Module :=
  { s with
    telemetryPortIsShared := i.isSerialPortFunctionShared
    isTelemetryConfigurationValid := i.featureTelemetry && i.canOpenSerialPortTelemetry }

/-! ## Sample inputs -/

/-- Collaborator answers with the feature on, a port available, and the given
port-sharing answer, armed flag and telemetry switch position. -/
def sampleInputs (shared armed switchOn : Bool) : Inputs :=
  { featureTelemetry := true
    canOpenSerialPortTelemetry := true
    isSerialPortFunctionShared := shared
    rcOptions := fun _ => switchOn
    ARMED := armed
    frSkyBaudRate := 9600
    hottBaudRate := 19200 }

/-- Collaborator answers with the telemetry feature switched off. -/
def featureOffInputs : Inputs :=
  { sampleInputs false false false with featureTelemetry := false }

/-- Statics with the given flags and provider, the telemetry switch unset. -/
def sampleModule (valid enabled shared : Bool) (provider : Nat) : Module :=
  { isTelemetryConfigurationValid := valid
    telemetryEnabled := enabled
    telemetryPortIsShared := shared
    telemetryConfig := { telemetry_provider := provider, telemetry_switch := false } }

/-- Collaborator answers, disarmed, in which only the telemetry box of
`rcOptions` is on. -/
def telemetryBoxOnInputs : Inputs :=
  { sampleInputs true false false with rcOptions := fun n => decide (n = BOXTELEMETRY) }

/-- Collaborator answers, disarmed, with the feature off and every box of
`rcOptions` on. -/
def allBoxesOnInputs : Inputs :=
  { featureOffInputs with rcOptions := fun _ => true }

/-- Statics on a shared port with the telemetry switch set. -/
def switchModule (valid enabled : Bool) (provider : Nat) : Module :=
  { isTelemetryConfigurationValid := valid
    telemetryEnabled := enabled
    telemetryPortIsShared := true
    telemetryConfig := { telemetry_provider := provider, telemetry_switch := true } }

/-- A sample life of the module: FrSky on a shared port is initialised while
armed, disarmed, the configuration is changed to HoTT, the module is
re-initialised with the telemetry feature off, and serviced. -/
def sampleHostRun : List (HostCall × Inputs) :=
  [(HostCall.entry EntryPoint.initTelemetry, sampleInputs true true false),
    (HostCall.entry EntryPoint.checkTelemetryState, sampleInputs true false false),
    (HostCall.useTelemetryConfig ⟨TELEMETRY_PROVIDER_HOTT, false⟩, sampleInputs true false false),
    (HostCall.entry EntryPoint.initTelemetry, featureOffInputs),
    (HostCall.entry EntryPoint.handleTelemetry, sampleInputs true true false)]

/-- A life of the module in which the provider is replaced while the port is
held: FrSky on a shared port is initialised while armed, the configuration is
changed to MSP, the vehicle is disarmed, and the module is re-initialised with
the telemetry feature off. -/
def providerSwapRun : List (HostCall × Inputs) :=
  [(HostCall.entry EntryPoint.initTelemetry, sampleInputs true true false),
    (HostCall.useTelemetryConfig ⟨TELEMETRY_PROVIDER_MSP, false⟩, sampleInputs true true false),
    (HostCall.entry EntryPoint.checkTelemetryState, sampleInputs true false false),
    (HostCall.entry EntryPoint.initTelemetry, featureOffInputs)]

/-! ## Running computations -/

@[simp]
theorem run_pure {α : Type} (a : α) (i : Inputs) (s : Module) :
    (pure a : Tel α) i s = ⟨a, s, []⟩ := rfl

@[simp]
theorem run_bind {α β : Type} (x : Tel α) (f : α → Tel β) (i : Inputs) (s : Module) :
    (x >>= f) i s = ⟨(f (x i s).val i (x i s).state).val, (f (x i s).val i (x i s).state).state,
      (x i s).trace ++ (f (x i s).val i (x i s).state).trace⟩ := rfl

@[simp]
theorem run_getModule (i : Inputs) (s : Module) : getModule i s = ⟨s, s, []⟩ := rfl

@[simp]
theorem run_getInputs (i : Inputs) (s : Module) : getInputs i s = ⟨i, s, []⟩ := rfl

@[simp]
theorem run_setModule (t : Module) (i : Inputs) (s : Module) :
    setModule t i s = ⟨(), t, []⟩ := rfl

@[simp]
theorem run_emit (c : ProviderCall) (i : Inputs) (s : Module) :
    emit c i s = ⟨(), s, [⟨c, s, i⟩]⟩ := rfl

theorem run_ite {α : Type} (c : Prop) [Decidable c] (x y : Tel α) (i : Inputs) (s : Module) :
    (if c then x else y) i s = if c then x i s else y i s := by
  split <;> rfl

theorem isFrSky_run (i : Inputs) (s : Module) :
    isTelemetryProviderFrSky i s =
      ⟨s.telemetryConfig.telemetry_provider == TELEMETRY_PROVIDER_FRSKY, s, []⟩ := rfl

theorem isHoTT_run (i : Inputs) (s : Module) :
    isTelemetryProviderHoTT i s =
      ⟨s.telemetryConfig.telemetry_provider == TELEMETRY_PROVIDER_HOTT, s, []⟩ := rfl

theorem isMSP_run (i : Inputs) (s : Module) :
    isTelemetryProviderMSP i s =
      ⟨s.telemetryConfig.telemetry_provider == TELEMETRY_PROVIDER_MSP, s, []⟩ := rfl

theorem determine_run (i : Inputs) (s : Module) :
    determineNewTelemetryEnabledState i s =
      ⟨(if s.telemetryPortIsShared then
          (if s.telemetryConfig.telemetry_switch then i.rcOptions BOXTELEMETRY else i.ARMED)
        else true), s, []⟩ := by
  simp [determineNewTelemetryEnabledState, run_ite]
  cases s.telemetryPortIsShared <;> cases s.telemetryConfig.telemetry_switch <;> simp

theorem determine_eq (i : Inputs) (s : Module) :
    determineNewTelemetryEnabledState i s = ⟨desired i s, s, []⟩ := by
  simp [desired, determine_run]

theorem desired_eq (i : Inputs) (s : Module) :
    desired i s = (if s.telemetryPortIsShared then
          (if s.telemetryConfig.telemetry_switch then i.rcOptions BOXTELEMETRY else i.ARMED)
        else true) := by
  simp [desired, determine_run]

theorem canUse_run (i : Inputs) (s : Module) :
    canUseTelemetryWithCurrentConfiguration i s =
      ⟨i.featureTelemetry && i.canOpenSerialPortTelemetry, s, []⟩ := by
  simp only [canUseTelemetryWithCurrentConfiguration, run_bind, run_ite, run_pure, run_getInputs]
  cases i.featureTelemetry <;> cases i.canOpenSerialPortTelemetry <;> simp

theorem configure_run (i : Inputs) (s : Module) :
    configureTelemetryPort i s = ⟨(), s, configureTrace i s⟩ := by
  simp only [configureTelemetryPort, configureTrace, run_bind, isFrSky_run, isHoTT_run, run_ite,
    run_pure, run_emit, beq_iff_eq]
  split <;> split <;> simp

theorem free_run (i : Inputs) (s : Module) :
    freeTelemetryPort i s = ⟨(), s, freeTrace i s⟩ := by
  simp only [freeTelemetryPort, freeTrace, run_bind, isFrSky_run, isHoTT_run, run_ite,
    run_pure, run_emit, beq_iff_eq]
  split <;> split <;> simp

theorem check_run (i : Inputs) (s : Module) :
    checkTelemetryState i s =
      if s.isTelemetryConfigurationValid = false then ⟨(), s, []⟩
      else if desired i s = s.telemetryEnabled then ⟨(), s, []⟩
      else ⟨(), { s with telemetryEnabled := desired i s },
            if desired i s then configureTrace i s else freeTrace i s⟩ := by
  simp only [checkTelemetryState, run_bind, run_ite, determine_eq, shouldChangeTelemetryStateNow,
    configure_run, free_run, run_pure, run_getModule, run_setModule]
  cases s.isTelemetryConfigurationValid <;> cases hd : desired i s <;>
    cases s.telemetryEnabled <;> simp

theorem handle_run (i : Inputs) (s : Module) :
    handleTelemetry i s =
      if s.isTelemetryConfigurationValid = true ∧ desired i s = true then ⟨(), s, handleTrace i s⟩
      else ⟨(), s, []⟩ := by
  simp only [handleTelemetry, handleTrace, run_bind, run_ite, determine_eq, isFrSky_run,
    isHoTT_run, isMSP_run, run_pure, run_getModule, run_emit, beq_iff_eq]
  cases s.isTelemetryConfigurationValid <;> cases hd : desired i s <;> simp
  split <;> split <;> split <;> simp

theorem init_run (i : Inputs) (s : Module) :
    initTelemetry i s =
      ⟨(), (checkTelemetryState i (afterInitFlags i s)).state,
        initTrace i (afterInitFlags i s) ++ (checkTelemetryState i (afterInitFlags i s)).trace⟩ := by
  simp only [initTelemetry, initTrace, afterInitFlags, run_bind, run_ite, canUse_run, isFrSky_run,
    isHoTT_run, isMSP_run, run_pure, run_getModule, run_getInputs, run_setModule, run_emit,
    beq_iff_eq]
  split <;> split <;> split <;> simp

theorem baud_run (i : Inputs) (s : Module) :
    getTelemetryProviderBaudRate i s =
      if s.telemetryConfig.telemetry_provider = TELEMETRY_PROVIDER_FRSKY then
        ⟨i.frSkyBaudRate, s, [⟨.getFrSkyTelemetryProviderBaudRate, s, i⟩]⟩
      else if s.telemetryConfig.telemetry_provider = TELEMETRY_PROVIDER_HOTT then
        ⟨i.hottBaudRate, s, [⟨.getHoTTTelemetryProviderBaudRate, s, i⟩]⟩
      else ⟨0, s, []⟩ := by
  simp only [getTelemetryProviderBaudRate, run_bind, run_ite, isFrSky_run, isHoTT_run, run_pure,
    run_getInputs, run_emit, beq_iff_eq]
  by_cases h1 : s.telemetryConfig.telemetry_provider = TELEMETRY_PROVIDER_FRSKY
  · simp [h1]
  · by_cases h2 : s.telemetryConfig.telemetry_provider = TELEMETRY_PROVIDER_HOTT
    · simp [h1, h2]
    · simp [h1, h2]

/-! ## Sequences of calls -/

@[simp]
theorem runCalls_nil (s : Module) : runCalls [] s = ⟨(), s, []⟩ := rfl

@[simp]
theorem runCalls_cons (e : EntryPoint) (i : Inputs) (rest : List (EntryPoint × Inputs))
    (s : Module) :
    runCalls ((e, i) :: rest) s =
      ⟨(), (runCalls rest (e.run i s).state).state,
        (e.run i s).trace ++ (runCalls rest (e.run i s).state).trace⟩ := rfl

theorem run_entry_check (i : Inputs) (s : Module) :
    EntryPoint.checkTelemetryState.run i s = checkTelemetryState i s := rfl

theorem run_entry_handle (i : Inputs) (s : Module) :
    EntryPoint.handleTelemetry.run i s = handleTelemetry i s := rfl

theorem run_entry_init (i : Inputs) (s : Module) :
    EntryPoint.initTelemetry.run i s = initTelemetry i s := rfl

theorem run_entry_free (i : Inputs) (s : Module) :
    EntryPoint.freeTelemetryPort.run i s = freeTelemetryPort i s := rfl

theorem run_entry_baud (i : Inputs) (s : Module) :
    EntryPoint.getTelemetryProviderBaudRate.run i s =
      ⟨(), (getTelemetryProviderBaudRate i s).state, (getTelemetryProviderBaudRate i s).trace⟩ := by
  simp [EntryPoint.run]

/-! ## C1: the decision table of the State Evaluator -/

/-- C1: `determineNewTelemetryEnabledState` follows the decision table for every
input: with Port-Shared false it returns true whatever the telemetry-switch
setting, armed flag and switch positions are; with Port-Shared true and
`telemetry_switch` set it returns `rcOptions[BOXTELEMETRY]`; with Port-Shared
true and `telemetry_switch` unset it returns the armed flag. -/
theorem determineNewTelemetryEnabledState_decision_table (i : Inputs) (valid enabled sw : Bool)
    (provider : Nat) :
    (determineNewTelemetryEnabledState i
      { isTelemetryConfigurationValid := valid
        telemetryEnabled := enabled
        telemetryPortIsShared := false
        telemetryConfig := { telemetry_provider := provider, telemetry_switch := sw } }).val
      = true ∧
    (determineNewTelemetryEnabledState i
      { isTelemetryConfigurationValid := valid
        telemetryEnabled := enabled
        telemetryPortIsShared := true
        telemetryConfig := { telemetry_provider := provider, telemetry_switch := true } }).val
      = i.rcOptions BOXTELEMETRY ∧
    (determineNewTelemetryEnabledState i
      { isTelemetryConfigurationValid := valid
        telemetryEnabled := enabled
        telemetryPortIsShared := true
        telemetryConfig := { telemetry_provider := provider, telemetry_switch := false } }).val
      = i.ARMED := by
  simp [determine_run]

/-! ## C2: gate permanence -/

/-- C2: in a state whose Configuration Validity Flag is false, every sequence of
`checkTelemetryState` and `handleTelemetry` calls, under arbitrary collaborator
answers and whatever the port-shared flag and provider are, emits no provider
call at all and leaves the statics (Enabled State and validity flag included)
unchanged. -/
theorem gate_permanence (s : Module) (steps : List (EntryPoint × Inputs))
    (hv : s.isTelemetryConfigurationValid = false)
    (hs : ∀ st ∈ steps, st.1 = EntryPoint.checkTelemetryState ∨
      st.1 = EntryPoint.handleTelemetry) :
    (runCalls steps s).trace = [] ∧ (runCalls steps s).state = s := by
  induction steps with
  | nil => simp
  | cons st rest ih =>
    obtain ⟨e, i⟩ := st
    have hrest : ∀ st ∈ rest, st.1 = EntryPoint.checkTelemetryState ∨
        st.1 = EntryPoint.handleTelemetry := fun st h => hs st (List.mem_cons_of_mem _ h)
    have hstep : e.run i s = ⟨(), s, []⟩ := by
      rcases hs (e, i) (List.mem_cons_self _ _) with h | h
      · simp only at h
        subst h
        simp [run_entry_check, check_run, hv]
      · simp only at h
        subst h
        simp [run_entry_handle, handle_run, hv]
    simp [hstep, ih hrest]

/-- Witness for C2: a check, a service call and a check under
changing armed and switch inputs, from a held-looking state with the gate
closed. -/
theorem gate_permanence_witness :
    (runCalls [(EntryPoint.checkTelemetryState, sampleInputs true true false),
        (EntryPoint.handleTelemetry, sampleInputs true false true),
        (EntryPoint.checkTelemetryState, sampleInputs false false false)]
      (sampleModule false true true TELEMETRY_PROVIDER_HOTT)).trace = [] ∧
    (runCalls [(EntryPoint.checkTelemetryState, sampleInputs true true false),
        (EntryPoint.handleTelemetry, sampleInputs true false true),
        (EntryPoint.checkTelemetryState, sampleInputs false false false)]
      (sampleModule false true true TELEMETRY_PROVIDER_HOTT)).state =
      sampleModule false true true TELEMETRY_PROVIDER_HOTT :=
  gate_permanence _ _ rfl (by simp)

/-! ## C3, C4: transitions of `checkTelemetryState` -/

theorem desired_withEnabled (i : Inputs) (s : Module) (en : Bool) :
    desired i { s with telemetryEnabled := en } = desired i s := by
  simp [desired_eq]

theorem calls_append (a b : List Emitted) : calls (a ++ b) = calls a ++ calls b := by
  simp [calls]

theorem check_state_valid (i : Inputs) (s : Module)
    (hv : s.isTelemetryConfigurationValid = true) :
    (checkTelemetryState i s).state = { s with telemetryEnabled := desired i s } := by
  rw [check_run]
  obtain ⟨v, e, sh, c⟩ := s
  simp only at hv
  subst hv
  by_cases hd : desired i ⟨true, e, sh, c⟩ = e
  · simp [hd]
  · simp [hd]

theorem calls_configureTrace (i : Inputs) (s : Module) :
    calls (configureTrace i s) =
      if s.telemetryConfig.telemetry_provider = TELEMETRY_PROVIDER_FRSKY then
        [ProviderCall.configureFrSkyTelemetryPort]
      else if s.telemetryConfig.telemetry_provider = TELEMETRY_PROVIDER_HOTT then
        [ProviderCall.configureHoTTTelemetryPort]
      else [] := by
  by_cases h1 : s.telemetryConfig.telemetry_provider = TELEMETRY_PROVIDER_FRSKY
  · simp [calls, configureTrace, h1, TELEMETRY_PROVIDER_FRSKY, TELEMETRY_PROVIDER_HOTT]
  · by_cases h2 : s.telemetryConfig.telemetry_provider = TELEMETRY_PROVIDER_HOTT
    · simp [calls, configureTrace, h2, TELEMETRY_PROVIDER_FRSKY, TELEMETRY_PROVIDER_HOTT]
    · simp [calls, configureTrace, h1, h2]

theorem calls_freeTrace (i : Inputs) (s : Module) :
    calls (freeTrace i s) =
      if s.telemetryConfig.telemetry_provider = TELEMETRY_PROVIDER_FRSKY then
        [ProviderCall.freeFrSkyTelemetryPort]
      else if s.telemetryConfig.telemetry_provider = TELEMETRY_PROVIDER_HOTT then
        [ProviderCall.freeHoTTTelemetryPort]
      else [] := by
  by_cases h1 : s.telemetryConfig.telemetry_provider = TELEMETRY_PROVIDER_FRSKY
  · simp [calls, freeTrace, h1, TELEMETRY_PROVIDER_FRSKY, TELEMETRY_PROVIDER_HOTT]
  · by_cases h2 : s.telemetryConfig.telemetry_provider = TELEMETRY_PROVIDER_HOTT
    · simp [calls, freeTrace, h2, TELEMETRY_PROVIDER_FRSKY, TELEMETRY_PROVIDER_HOTT]
    · simp [calls, freeTrace, h1, h2]

/-- The calls of one `checkTelemetryState` with the gate open. -/
theorem check_calls_valid (i : Inputs) (s : Module)
    (hv : s.isTelemetryConfigurationValid = true) :
    calls (checkTelemetryState i s).trace =
      if desired i s = s.telemetryEnabled then []
      else if desired i s then calls (configureTrace i s) else calls (freeTrace i s) := by
  rw [check_run]
  cases h : desired i s <;> cases h2 : s.telemetryEnabled <;> simp [hv, calls]

/-- One `checkTelemetryState` of FrSky or HoTT with the gate open: an acquire on
a rising edge, a release on a falling edge, nothing otherwise. -/
theorem check_step_edges (i : Inputs) (s : Module)
    (hv : s.isTelemetryConfigurationValid = true)
    (hp : s.telemetryConfig.telemetry_provider = TELEMETRY_PROVIDER_FRSKY ∨
      s.telemetryConfig.telemetry_provider = TELEMETRY_PROVIDER_HOTT) :
    (calls (checkTelemetryState i s).trace).countP isAcquire =
      (if s.telemetryEnabled = false ∧ desired i s = true then 1 else 0) ∧
    (calls (checkTelemetryState i s).trace).countP isRelease =
      (if s.telemetryEnabled = true ∧ desired i s = false then 1 else 0) ∧
    (calls (checkTelemetryState i s).trace).length =
      (if s.telemetryEnabled = false ∧ desired i s = true then 1 else 0) +
        (if s.telemetryEnabled = true ∧ desired i s = false then 1 else 0) ∧
    ∀ c ∈ calls (checkTelemetryState i s).trace,
      providerOf c = s.telemetryConfig.telemetry_provider := by
  rw [check_calls_valid i s hv, calls_configureTrace, calls_freeTrace]
  rcases hp with hp | hp <;> cases h : desired i s <;> cases h2 : s.telemetryEnabled <;>
    simp [hp, isAcquire, isRelease, providerOf, TELEMETRY_PROVIDER_FRSKY,
      TELEMETRY_PROVIDER_HOTT]

theorem check_seq_edges (s : Module) (hv : s.isTelemetryConfigurationValid = true)
    (hp : s.telemetryConfig.telemetry_provider = TELEMETRY_PROVIDER_FRSKY ∨
      s.telemetryConfig.telemetry_provider = TELEMETRY_PROVIDER_HOTT)
    (is : List Inputs) : ∀ en : Bool,
    (calls (runCalls (checkCalls is) { s with telemetryEnabled := en }).trace).countP isAcquire =
      risingEdges en (is.map fun i => desired i s) ∧
    (calls (runCalls (checkCalls is) { s with telemetryEnabled := en }).trace).countP isRelease =
      fallingEdges en (is.map fun i => desired i s) ∧
    (calls (runCalls (checkCalls is) { s with telemetryEnabled := en }).trace).length =
      risingEdges en (is.map fun i => desired i s) +
        fallingEdges en (is.map fun i => desired i s) ∧
    ∀ c ∈ calls (runCalls (checkCalls is) { s with telemetryEnabled := en }).trace,
      providerOf c = s.telemetryConfig.telemetry_provider := by
  induction is with
  | nil => intro en; simp [checkCalls, calls, risingEdges, fallingEdges]
  | cons i rest ih =>
    intro en
    have hv2 : ({ s with telemetryEnabled := en } : Module).isTelemetryConfigurationValid = true := hv
    obtain ⟨ih1, ih2, ih3, ih4⟩ := ih (desired i s)
    obtain ⟨st1, st2, st3, st4⟩ := check_step_edges i { s with telemetryEnabled := en } hv2 hp
    simp only [desired_withEnabled] at st1 st2 st3 st4
    simp only [checkCalls] at ih1 ih2 ih3 ih4
    simp only [checkCalls, List.map_cons, runCalls_cons, run_entry_check, calls_append,
      check_state_valid _ _ hv2, desired_withEnabled,
      List.countP_append, List.length_append, risingEdges, fallingEdges, ih1, ih2, ih3,
      st1, st2, st3, List.mem_append]
    refine ⟨trivial, trivial, by omega, ?_⟩
    rintro c (hc | hc)
    · exact st4 c hc
    · exact ih4 c hc

theorem check_config (i : Inputs) (s : Module) :
    (checkTelemetryState i s).state.telemetryConfig = s.telemetryConfig ∧
    (checkTelemetryState i s).state.isTelemetryConfigurationValid =
      s.isTelemetryConfigurationValid ∧
    (checkTelemetryState i s).state.telemetryPortIsShared = s.telemetryPortIsShared := by
  rw [check_run]
  split
  · simp
  · split <;> simp

/-- A provider without port operations (any tag other than FrSky and HoTT):
`checkTelemetryState` calls nothing. -/
theorem check_trace_no_port (i : Inputs) (s : Module)
    (h1 : s.telemetryConfig.telemetry_provider ≠ TELEMETRY_PROVIDER_FRSKY)
    (h2 : s.telemetryConfig.telemetry_provider ≠ TELEMETRY_PROVIDER_HOTT) :
    (checkTelemetryState i s).trace = [] := by
  rw [check_run]
  split
  · rfl
  · split
    · rfl
    · simp [configureTrace, freeTrace, h1, h2]

theorem check_seq_no_port (is : List Inputs) : ∀ s : Module,
    s.telemetryConfig.telemetry_provider ≠ TELEMETRY_PROVIDER_FRSKY →
    s.telemetryConfig.telemetry_provider ≠ TELEMETRY_PROVIDER_HOTT →
    (runCalls (checkCalls is) s).trace = [] := by
  induction is with
  | nil => intro s _ _; simp [checkCalls]
  | cons i rest ih =>
    intro s h1 h2
    have hc := (check_config i s).1
    have := ih (checkTelemetryState i s).state (by rw [hc]; exact h1) (by rw [hc]; exact h2)
    simp only [checkCalls] at this
    simp [checkCalls, run_entry_check, check_trace_no_port i s h1 h2, this]

/-- C3, as stated, fails for MSP: with the gate open, MSP configured and the
port not shared, the first `checkTelemetryState` sees a false-to-true edge of
the Desired State but no configure-port call is made. -/
theorem msp_rising_edge_without_acquire :
    (calls (runCalls (checkCalls [sampleInputs false false false])
      (sampleModule true false false TELEMETRY_PROVIDER_MSP)).trace).countP isAcquire = 0 ∧
    risingEdges false ([sampleInputs false false false].map fun i =>
      desired i (sampleModule true false false TELEMETRY_PROVIDER_MSP)) = 1 ∧
    (calls (runCalls (checkCalls [sampleInputs false false false])
      (sampleModule true false false TELEMETRY_PROVIDER_MSP)).trace).countP isAcquire ≠
    risingEdges false ([sampleInputs false false false].map fun i =>
      desired i (sampleModule true false false TELEMETRY_PROVIDER_MSP)) := by
  decide

/-- C3 (amended): from a state with Enabled State Disabled and the validity flag
true, for every finite sequence of `checkTelemetryState` calls: when the
configuration names FrSky or HoTT, the number of configure-port calls equals
the number of false-to-true edges of the Desired-State sequence (the initial
state counting as false), the number of free-port calls equals the number of
true-to-false edges, there is no other call (so repeated identical desired
states produce none), and every call belongs to the configured provider; when it
names MSP, no call is made at all. -/
theorem exactly_once_edge (s : Module) (is : List Inputs)
    (hv : s.isTelemetryConfigurationValid = true) (he : s.telemetryEnabled = false) :
    ((s.telemetryConfig.telemetry_provider = TELEMETRY_PROVIDER_FRSKY ∨
        s.telemetryConfig.telemetry_provider = TELEMETRY_PROVIDER_HOTT) →
      (calls (runCalls (checkCalls is) s).trace).countP isAcquire =
        risingEdges false (is.map fun i => desired i s) ∧
      (calls (runCalls (checkCalls is) s).trace).countP isRelease =
        fallingEdges false (is.map fun i => desired i s) ∧
      (calls (runCalls (checkCalls is) s).trace).length =
        risingEdges false (is.map fun i => desired i s) +
          fallingEdges false (is.map fun i => desired i s) ∧
      ∀ c ∈ calls (runCalls (checkCalls is) s).trace,
        providerOf c = s.telemetryConfig.telemetry_provider) ∧
    (s.telemetryConfig.telemetry_provider = TELEMETRY_PROVIDER_MSP →
      calls (runCalls (checkCalls is) s).trace = []) := by
  constructor
  · intro hp
    have hs : ({ s with telemetryEnabled := false } : Module) = s := by
      cases s
      simp_all
    have := check_seq_edges s hv hp is false
    rw [hs] at this
    exact this
  · intro hp
    rw [check_seq_no_port is s (by simp [hp, TELEMETRY_PROVIDER_MSP, TELEMETRY_PROVIDER_FRSKY])
      (by simp [hp, TELEMETRY_PROVIDER_MSP, TELEMETRY_PROVIDER_HOTT])]
    rfl

/-- Witness for C3: scenario B with FrSky (shared port, no
switch, armed false, true, true, false), and a rising edge with MSP. -/
theorem exactly_once_edge_witness :
    ((calls (runCalls (checkCalls [sampleInputs true false false, sampleInputs true true false,
          sampleInputs true true false, sampleInputs true false false])
        (sampleModule true false true TELEMETRY_PROVIDER_FRSKY)).trace).countP isAcquire = 1 ∧
      (calls (runCalls (checkCalls [sampleInputs true false false, sampleInputs true true false,
          sampleInputs true true false, sampleInputs true false false])
        (sampleModule true false true TELEMETRY_PROVIDER_FRSKY)).trace).countP isRelease = 1 ∧
      (calls (runCalls (checkCalls [sampleInputs true false false, sampleInputs true true false,
          sampleInputs true true false, sampleInputs true false false])
        (sampleModule true false true TELEMETRY_PROVIDER_FRSKY)).trace).length = 1 + 1 ∧
      ∀ c ∈ calls (runCalls (checkCalls [sampleInputs true false false,
          sampleInputs true true false, sampleInputs true true false,
          sampleInputs true false false])
        (sampleModule true false true TELEMETRY_PROVIDER_FRSKY)).trace,
        providerOf c = TELEMETRY_PROVIDER_FRSKY) ∧
    calls (runCalls (checkCalls [sampleInputs false false false])
      (sampleModule true false false TELEMETRY_PROVIDER_MSP)).trace = [] :=
  ⟨(exactly_once_edge (sampleModule true false true TELEMETRY_PROVIDER_FRSKY)
      [sampleInputs true false false, sampleInputs true true false,
        sampleInputs true true false, sampleInputs true false false] rfl rfl).1 (Or.inl rfl),
   (exactly_once_edge (sampleModule true false false TELEMETRY_PROVIDER_MSP)
      [sampleInputs false false false] rfl rfl).2 rfl⟩

/-- C4, as stated, fails for MSP: with the gate open, the Desired State true
and the Enabled State Disabled, `checkTelemetryState` makes no provider call,
so not exactly one configure-port call, although it sets the Enabled State. -/
theorem checkTelemetryState_msp_acquires_nothing :
    (sampleModule true false false TELEMETRY_PROVIDER_MSP).isTelemetryConfigurationValid = true ∧
    desired (sampleInputs false false false)
      (sampleModule true false false TELEMETRY_PROVIDER_MSP) = true ∧
    calls (checkTelemetryState (sampleInputs false false false)
      (sampleModule true false false TELEMETRY_PROVIDER_MSP)).trace = [] ∧
    (calls (checkTelemetryState (sampleInputs false false false)
      (sampleModule true false false TELEMETRY_PROVIDER_MSP)).trace).countP isAcquire ≠ 1 ∧
    (checkTelemetryState (sampleInputs false false false)
      (sampleModule true false false TELEMETRY_PROVIDER_MSP)).state.telemetryEnabled = true := by
  decide

/-- C4 (amended): with the validity flag true, if the Desired State is true and
the Enabled State is Disabled, `checkTelemetryState` sets the Enabled State to
true and its provider calls are exactly one configure-port of FrSky when FrSky
is configured, exactly one configure-port of HoTT when HoTT is configured, and
none when MSP is configured; if the Desired State is false and the Enabled State
is Enabled, it sets the Enabled State to false and its provider calls are
exactly one free-port of FrSky, exactly one free-port of HoTT, or none for MSP. -/
theorem checkTelemetryState_transitions (i : Inputs) (s : Module)
    (hv : s.isTelemetryConfigurationValid = true) :
    (desired i s = true → s.telemetryEnabled = false →
      (checkTelemetryState i s).state = { s with telemetryEnabled := true } ∧
      (s.telemetryConfig.telemetry_provider = TELEMETRY_PROVIDER_FRSKY →
        calls (checkTelemetryState i s).trace = [ProviderCall.configureFrSkyTelemetryPort]) ∧
      (s.telemetryConfig.telemetry_provider = TELEMETRY_PROVIDER_HOTT →
        calls (checkTelemetryState i s).trace = [ProviderCall.configureHoTTTelemetryPort]) ∧
      (s.telemetryConfig.telemetry_provider = TELEMETRY_PROVIDER_MSP →
        calls (checkTelemetryState i s).trace = [])) ∧
    (desired i s = false → s.telemetryEnabled = true →
      (checkTelemetryState i s).state = { s with telemetryEnabled := false } ∧
      (s.telemetryConfig.telemetry_provider = TELEMETRY_PROVIDER_FRSKY →
        calls (checkTelemetryState i s).trace = [ProviderCall.freeFrSkyTelemetryPort]) ∧
      (s.telemetryConfig.telemetry_provider = TELEMETRY_PROVIDER_HOTT →
        calls (checkTelemetryState i s).trace = [ProviderCall.freeHoTTTelemetryPort]) ∧
      (s.telemetryConfig.telemetry_provider = TELEMETRY_PROVIDER_MSP →
        calls (checkTelemetryState i s).trace = [])) := by
  rw [check_calls_valid i s hv, check_state_valid i s hv, calls_configureTrace, calls_freeTrace]
  constructor
  · intro hd he
    simp [hd, he, TELEMETRY_PROVIDER_FRSKY, TELEMETRY_PROVIDER_HOTT, TELEMETRY_PROVIDER_MSP]
    refine ⟨?_, ?_, ?_⟩ <;> intro h <;> simp [h]
  · intro hd he
    simp [hd, he, TELEMETRY_PROVIDER_FRSKY, TELEMETRY_PROVIDER_HOTT, TELEMETRY_PROVIDER_MSP]
    refine ⟨?_, ?_, ?_⟩ <;> intro h <;> simp [h]

/-- Witness for C4: HoTT acquiring on a dedicated
port, and FrSky releasing on a shared port when disarmed. -/
theorem checkTelemetryState_transitions_witness :
    ((checkTelemetryState (sampleInputs false false false)
        (sampleModule true false false TELEMETRY_PROVIDER_HOTT)).state =
        sampleModule true true false TELEMETRY_PROVIDER_HOTT ∧
      calls (checkTelemetryState (sampleInputs false false false)
        (sampleModule true false false TELEMETRY_PROVIDER_HOTT)).trace =
        [ProviderCall.configureHoTTTelemetryPort]) ∧
    ((checkTelemetryState (sampleInputs true false false)
        (sampleModule true true true TELEMETRY_PROVIDER_FRSKY)).state =
        sampleModule true false true TELEMETRY_PROVIDER_FRSKY ∧
      calls (checkTelemetryState (sampleInputs true false false)
        (sampleModule true true true TELEMETRY_PROVIDER_FRSKY)).trace =
        [ProviderCall.freeFrSkyTelemetryPort]) :=
  ⟨⟨((checkTelemetryState_transitions (sampleInputs false false false)
        (sampleModule true false false TELEMETRY_PROVIDER_HOTT) rfl).1 rfl rfl).1,
     ((checkTelemetryState_transitions (sampleInputs false false false)
        (sampleModule true false false TELEMETRY_PROVIDER_HOTT) rfl).1 rfl rfl).2.2.1 rfl⟩,
   ⟨((checkTelemetryState_transitions (sampleInputs true false false)
        (sampleModule true true true TELEMETRY_PROVIDER_FRSKY) rfl).2 rfl rfl).1,
     ((checkTelemetryState_transitions (sampleInputs true false false)
        (sampleModule true true true TELEMETRY_PROVIDER_FRSKY) rfl).2 rfl rfl).2.1 rfl⟩⟩

/-! ## C5: acquire and release alternate -/

theorem alternates_append (a b : List ProviderCall) : ∀ h : Bool,
    alternates h (a ++ b) = (alternates h a && alternates (heldAfter h a) b) := by
  induction a with
  | nil => intro h; simp [alternates, heldAfter]
  | cons c cs ih =>
    intro h
    cases hA : isAcquire c <;> cases hR : isRelease c <;>
      simp [alternates, heldAfter, hA, hR, ih, Bool.and_assoc]

theorem heldAfter_append (a b : List ProviderCall) : ∀ h : Bool,
    heldAfter h (a ++ b) = heldAfter (heldAfter h a) b := by
  induction a with
  | nil => intro h; simp [heldAfter]
  | cons c cs ih => intro h; simp [heldAfter, ih]

/-- Calls that are neither acquire nor release do not disturb the alternation. -/
theorem alternates_neutral (cs : List ProviderCall)
    (hn : ∀ c ∈ cs, isAcquire c = false ∧ isRelease c = false) : ∀ h : Bool,
    alternates h cs = true ∧ heldAfter h cs = h := by
  induction cs with
  | nil => intro h; simp [alternates, heldAfter]
  | cons c cs ih =>
    intro h
    have hc := hn c (List.mem_cons_self _ _)
    have := ih (fun x hx => hn x (List.mem_cons_of_mem _ hx)) h
    simp [alternates, heldAfter, hc.1, hc.2, this]

/-- Under alternation, two acquires are separated by a release. -/
theorem alternates_no_double_acquire (b d : List ProviderCall) (c : ProviderCall)
    (hc : isAcquire c = true) (h : alternates true (b ++ c :: d) = true) :
    ∃ r ∈ b, isRelease r = true := by
  induction b with
  | nil => simp [alternates, hc] at h
  | cons x xs ih =>
    cases hA : isAcquire x
    · cases hR : isRelease x
      · simp only [List.cons_append, alternates, hA, hR] at h
        obtain ⟨r, hr, hrr⟩ := ih (by simpa using h)
        exact ⟨r, List.mem_cons_of_mem _ hr, hrr⟩
      · exact ⟨x, List.mem_cons_self _ _, hR⟩
    · simp [alternates, hA] at h

/-- Under alternation, two releases are separated by an acquire. -/
theorem alternates_no_double_release (b d : List ProviderCall) (c : ProviderCall)
    (hc : isRelease c = true) (hc2 : isAcquire c = false)
    (h : alternates false (b ++ c :: d) = true) :
    ∃ r ∈ b, isAcquire r = true := by
  induction b with
  | nil => simp [alternates, hc, hc2] at h
  | cons x xs ih =>
    cases hA : isAcquire x
    · cases hR : isRelease x
      · simp only [List.cons_append, alternates, hA, hR] at h
        obtain ⟨r, hr, hrr⟩ := ih (by simpa using h)
        exact ⟨r, List.mem_cons_of_mem _ hr, hrr⟩
      · simp [alternates, hA, hR] at h
    · exact ⟨x, List.mem_cons_self _ _, hA⟩

/-- Under alternation from a free port, the first port operation is an
acquire. -/
theorem alternates_first_is_acquire (a d : List ProviderCall) (c : ProviderCall)
    (ha : ∀ x ∈ a, isAcquire x = false ∧ isRelease x = false)
    (hc : isAcquire c = true ∨ isRelease c = true)
    (h : alternates false (a ++ c :: d) = true) : isAcquire c = true := by
  rw [alternates_append, (alternates_neutral a ha false).2] at h
  cases hA : isAcquire c
  · rcases hc with hc | hc
    · rw [hA] at hc
      cases hc
    · simp [alternates, hA, hc] at h
  · rfl

theorem calls_initTrace_neutral (i : Inputs) (s : Module) :
    ∀ c ∈ calls (initTrace i s), isAcquire c = false ∧ isRelease c = false := by
  intro c hc
  simp only [calls, initTrace, List.map_append, List.mem_append, List.mem_map] at hc
  rcases hc with ⟨e, he, rfl⟩ | ⟨e, he, rfl⟩ | ⟨e, he, rfl⟩ <;>
    · split at he
      · simp only [List.mem_singleton] at he
        subst he
        simp [isAcquire, isRelease]
      · simp at he

theorem calls_handleTrace_neutral (i : Inputs) (s : Module) :
    ∀ c ∈ calls (handleTrace i s), isAcquire c = false ∧ isRelease c = false := by
  intro c hc
  simp only [calls, handleTrace, List.map_append, List.mem_append, List.mem_map] at hc
  rcases hc with ⟨e, he, rfl⟩ | ⟨e, he, rfl⟩ | ⟨e, he, rfl⟩ <;>
    · split at he
      · simp only [List.mem_singleton] at he
        subst he
        simp [isAcquire, isRelease]
      · simp at he

/-- One `checkTelemetryState` keeps the alternation, `h` telling whether the
port is held: for FrSky and HoTT it is the Enabled State. -/
theorem check_step_alt (i : Inputs) (s : Module) (h : Bool)
    (hh : (s.telemetryConfig.telemetry_provider = TELEMETRY_PROVIDER_FRSKY ∨
      s.telemetryConfig.telemetry_provider = TELEMETRY_PROVIDER_HOTT) → h = s.telemetryEnabled) :
    alternates h (calls (checkTelemetryState i s).trace) = true ∧
    ((s.telemetryConfig.telemetry_provider = TELEMETRY_PROVIDER_FRSKY ∨
      s.telemetryConfig.telemetry_provider = TELEMETRY_PROVIDER_HOTT) →
        heldAfter h (calls (checkTelemetryState i s).trace) =
          (checkTelemetryState i s).state.telemetryEnabled) ∧
    ∀ x ∈ (checkTelemetryState i s).trace, isAcquire x.call = true →
      x.state.isTelemetryConfigurationValid = true := by
  by_cases hF : s.telemetryConfig.telemetry_provider = TELEMETRY_PROVIDER_FRSKY
  · have hh2 := hh (Or.inl hF)
    subst hh2
    rw [check_run]
    cases hv : s.isTelemetryConfigurationValid <;> cases hd : desired i s <;>
      cases he : s.telemetryEnabled <;>
      simp [alternates, heldAfter, calls, configureTrace, freeTrace, hF, isAcquire, isRelease,
        TELEMETRY_PROVIDER_FRSKY, TELEMETRY_PROVIDER_HOTT, hv, he]
  · by_cases hH : s.telemetryConfig.telemetry_provider = TELEMETRY_PROVIDER_HOTT
    · have hh2 := hh (Or.inr hH)
      subst hh2
      rw [check_run]
      cases hv : s.isTelemetryConfigurationValid <;> cases hd : desired i s <;>
        cases he : s.telemetryEnabled <;>
        simp [alternates, heldAfter, calls, configureTrace, freeTrace, hH, isAcquire, isRelease,
          TELEMETRY_PROVIDER_FRSKY, TELEMETRY_PROVIDER_HOTT, hv, he]
    · rw [check_trace_no_port i s hF hH]
      simp [alternates, calls, hF, hH]

theorem afterInitFlags_fields (i : Inputs) (s : Module) :
    (afterInitFlags i s).telemetryConfig = s.telemetryConfig ∧
    (afterInitFlags i s).telemetryEnabled = s.telemetryEnabled ∧
    (afterInitFlags i s).isTelemetryConfigurationValid =
      (i.featureTelemetry && i.canOpenSerialPortTelemetry) ∧
    (afterInitFlags i s).telemetryPortIsShared = i.isSerialPortFunctionShared := by
  simp [afterInitFlags]

theorem initTrace_no_acquire (i : Inputs) (s : Module) :
    ∀ x ∈ initTrace i s, isAcquire x.call = false := by
  intro x hx
  exact (calls_initTrace_neutral i s x.call (List.mem_map_of_mem _ hx)).1

theorem handleTrace_no_acquire (i : Inputs) (s : Module) :
    ∀ x ∈ handleTrace i s, isAcquire x.call = false := by
  intro x hx
  exact (calls_handleTrace_neutral i s x.call (List.mem_map_of_mem _ hx)).1

/-- One lifecycle entry point keeps the alternation and the configuration, and
acquires only with the validity flag true. -/
theorem lifecycle_step_alt (e : EntryPoint) (he : e.isLifecycle = true) (i : Inputs) (s : Module)
    (h : Bool)
    (hh : (s.telemetryConfig.telemetry_provider = TELEMETRY_PROVIDER_FRSKY ∨
      s.telemetryConfig.telemetry_provider = TELEMETRY_PROVIDER_HOTT) → h = s.telemetryEnabled) :
    alternates h (calls (e.run i s).trace) = true ∧
    ((s.telemetryConfig.telemetry_provider = TELEMETRY_PROVIDER_FRSKY ∨
      s.telemetryConfig.telemetry_provider = TELEMETRY_PROVIDER_HOTT) →
        heldAfter h (calls (e.run i s).trace) = (e.run i s).state.telemetryEnabled) ∧
    (e.run i s).state.telemetryConfig = s.telemetryConfig ∧
    ∀ x ∈ (e.run i s).trace, isAcquire x.call = true →
      x.state.isTelemetryConfigurationValid = true := by
  cases e with
  | initTelemetry =>
    obtain ⟨f1, f2, _, _⟩ := afterInitFlags_fields i s
    have hh2 : ((afterInitFlags i s).telemetryConfig.telemetry_provider = TELEMETRY_PROVIDER_FRSKY ∨
        (afterInitFlags i s).telemetryConfig.telemetry_provider = TELEMETRY_PROVIDER_HOTT) →
        h = (afterInitFlags i s).telemetryEnabled := by
      rw [f1, f2]
      exact hh
    obtain ⟨c1, c2, c3⟩ := check_step_alt i (afterInitFlags i s) h hh2
    obtain ⟨n1, n2⟩ := alternates_neutral _ (calls_initTrace_neutral i (afterInitFlags i s)) h
    rw [f1] at c2
    rw [run_entry_init, init_run]
    simp only [calls_append, alternates_append, heldAfter_append, n1, n2, c1, Bool.and_self,
      (check_config i (afterInitFlags i s)).1, f1, List.mem_append, true_and]
    refine ⟨c2, ?_⟩
    rintro x (hx | hx) hA
    · rw [initTrace_no_acquire i _ x hx] at hA
      cases hA
    · exact c3 x hx hA
  | checkTelemetryState =>
    obtain ⟨c1, c2, c3⟩ := check_step_alt i s h hh
    rw [run_entry_check]
    exact ⟨c1, c2, (check_config i s).1, c3⟩
  | handleTelemetry =>
    rw [run_entry_handle, handle_run]
    split
    · obtain ⟨n1, n2⟩ := alternates_neutral _ (calls_handleTrace_neutral i s) h
      refine ⟨n1, fun hp => ?_, rfl, ?_⟩
      · rw [n2]
        exact hh hp
      · intro x hx hA
        rw [handleTrace_no_acquire i s x hx] at hA
        cases hA
    · refine ⟨rfl, fun hp => ?_, rfl, ?_⟩
      · simpa [calls, heldAfter] using hh hp
      · intro x hx
        cases hx
  | getTelemetryProviderBaudRate => cases he
  | freeTelemetryPort => cases he

theorem lifecycle_run_alt (steps : List (EntryPoint × Inputs))
    (hs : ∀ st ∈ steps, st.1.isLifecycle = true) : ∀ (s : Module) (h : Bool),
    ((s.telemetryConfig.telemetry_provider = TELEMETRY_PROVIDER_FRSKY ∨
      s.telemetryConfig.telemetry_provider = TELEMETRY_PROVIDER_HOTT) → h = s.telemetryEnabled) →
    alternates h (calls (runCalls steps s).trace) = true ∧
    ((s.telemetryConfig.telemetry_provider = TELEMETRY_PROVIDER_FRSKY ∨
      s.telemetryConfig.telemetry_provider = TELEMETRY_PROVIDER_HOTT) →
        heldAfter h (calls (runCalls steps s).trace) =
          (runCalls steps s).state.telemetryEnabled) ∧
    ∀ x ∈ (runCalls steps s).trace, isAcquire x.call = true →
      x.state.isTelemetryConfigurationValid = true := by
  induction steps with
  | nil => intro s h hh; simpa [calls, alternates, heldAfter] using hh
  | cons st rest ih =>
    intro s h hh
    obtain ⟨e, i⟩ := st
    obtain ⟨a1, a2, a3, a4⟩ :=
      lifecycle_step_alt e (hs (e, i) (List.mem_cons_self _ _)) i s h hh
    obtain ⟨b1, b2, b3⟩ := ih (fun st hst => hs st (List.mem_cons_of_mem _ hst)) (e.run i s).state
      (heldAfter h (calls (e.run i s).trace)) (by rw [a3]; exact a2)
    rw [a3] at b2
    simp only [runCalls_cons, calls_append, alternates_append, heldAfter_append, a1, b1,
      Bool.and_self, List.mem_append, true_and]
    refine ⟨b2, ?_⟩
    rintro x (hx | hx) hA
    · exact a4 x hx hA
    · exact b3 x hx hA

/-- C5: for a fixed configuration, in the call trace of every finite sequence of
`initTelemetry` (under arbitrary collaborator answers, re-initialisation
included), `checkTelemetryState` and `handleTelemetry` calls from the initial
state, acquire and release calls alternate starting with an acquire (never two
acquires without a release between them, never two releases without an acquire
between them, the first of the two kinds is an acquire), and every acquire is
made while the Configuration Validity Flag is true. -/
theorem acquire_release_alternate (cfg : telemetryConfig_t) (steps : List (EntryPoint × Inputs))
    (hs : ∀ st ∈ steps, st.1.isLifecycle = true) :
    alternates false (calls (runCalls steps (initialModule cfg)).trace) = true ∧
    ∀ x ∈ (runCalls steps (initialModule cfg)).trace, isAcquire x.call = true →
      x.state.isTelemetryConfigurationValid = true :=
  ⟨(lifecycle_run_alt steps hs (initialModule cfg) false (fun _ => rfl)).1,
    (lifecycle_run_alt steps hs (initialModule cfg) false (fun _ => rfl)).2.2⟩

/-- Witness for C5: HoTT on a shared port, initialised
while armed, disarmed, re-initialised with the feature off, re-armed. -/
theorem acquire_release_alternate_witness :
    alternates false (calls (runCalls
      [(EntryPoint.initTelemetry, sampleInputs true true false),
        (EntryPoint.handleTelemetry, sampleInputs true true false),
        (EntryPoint.checkTelemetryState, sampleInputs true false false),
        (EntryPoint.initTelemetry, featureOffInputs),
        (EntryPoint.checkTelemetryState, sampleInputs true true false)]
      (initialModule ⟨TELEMETRY_PROVIDER_HOTT, false⟩)).trace) = true ∧
    ∀ x ∈ (runCalls
      [(EntryPoint.initTelemetry, sampleInputs true true false),
        (EntryPoint.handleTelemetry, sampleInputs true true false),
        (EntryPoint.checkTelemetryState, sampleInputs true false false),
        (EntryPoint.initTelemetry, featureOffInputs),
        (EntryPoint.checkTelemetryState, sampleInputs true true false)]
      (initialModule ⟨TELEMETRY_PROVIDER_HOTT, false⟩)).trace, isAcquire x.call = true →
      x.state.isTelemetryConfigurationValid = true :=
  acquire_release_alternate ⟨TELEMETRY_PROVIDER_HOTT, false⟩ _ (by decide)

/-! ## C6: the port under an unusable configuration -/

theorem lifecycle_step_gate (e : EntryPoint) (he : e.isLifecycle = true) (i : Inputs) (s : Module)
    (hinv : s.isTelemetryConfigurationValid = false → s.telemetryEnabled = false)
    (hsafe : ¬ (e = EntryPoint.initTelemetry ∧ s.telemetryEnabled = true ∧
      (canUseTelemetryWithCurrentConfiguration i s).val = false)) :
    (e.run i s).state.isTelemetryConfigurationValid = false →
      (e.run i s).state.telemetryEnabled = false := by
  cases e with
  | initTelemetry =>
    rw [canUse_run] at hsafe
    rw [run_entry_init, init_run, check_run]
    simp only [afterInitFlags]
    cases hc : (i.featureTelemetry && i.canOpenSerialPortTelemetry)
    · cases hen : s.telemetryEnabled
      · simp [hen]
      · simp [hc, hen] at hsafe
    · simp only [Bool.true_eq_false, ↓reduceIte]
      split <;> simp
  | checkTelemetryState =>
    rw [run_entry_check, check_run]
    cases hv : s.isTelemetryConfigurationValid
    · simpa [hv] using hinv
    · simp only [Bool.true_eq_false, ↓reduceIte]
      split <;> simp [hv]
  | handleTelemetry =>
    rw [run_entry_handle, handle_run]
    split <;> exact hinv
  | getTelemetryProviderBaudRate => cases he
  | freeTelemetryPort => cases he

/-- Without port operations (a provider other than FrSky and HoTT), the
lifecycle entry points make neither acquire nor release calls. -/
theorem lifecycle_run_neutral (steps : List (EntryPoint × Inputs))
    (hs : ∀ st ∈ steps, st.1.isLifecycle = true) : ∀ s : Module,
    s.telemetryConfig.telemetry_provider ≠ TELEMETRY_PROVIDER_FRSKY →
    s.telemetryConfig.telemetry_provider ≠ TELEMETRY_PROVIDER_HOTT →
    ∀ c ∈ calls (runCalls steps s).trace, isAcquire c = false ∧ isRelease c = false := by
  induction steps with
  | nil => intro s _ _ c hc; simp [calls] at hc
  | cons st rest ih =>
    intro s h1 h2 c hc
    obtain ⟨e, i⟩ := st
    have he := hs (e, i) (List.mem_cons_self _ _)
    have hcfg : (e.run i s).state.telemetryConfig = s.telemetryConfig :=
      (lifecycle_step_alt e he i s false (fun h => by rcases h with h | h <;> contradiction)).2.2.1
    simp only [runCalls_cons, calls_append, List.mem_append] at hc
    rcases hc with hc | hc
    · cases e with
      | initTelemetry =>
        rw [run_entry_init, init_run, check_trace_no_port i (afterInitFlags i s)
          (by simpa [afterInitFlags] using h1) (by simpa [afterInitFlags] using h2),
          List.append_nil] at hc
        exact calls_initTrace_neutral i _ c hc
      | checkTelemetryState =>
        rw [run_entry_check, check_trace_no_port i s h1 h2] at hc
        simp [calls] at hc
      | handleTelemetry =>
        rw [run_entry_handle, handle_run] at hc
        split at hc
        · exact calls_handleTrace_neutral i _ c hc
        · simp [calls] at hc
      | getTelemetryProviderBaudRate => cases he
      | freeTelemetryPort => cases he
    · exact ih (fun st hst => hs st (List.mem_cons_of_mem _ hst)) _ (by rw [hcfg]; exact h1)
        (by rw [hcfg]; exact h2) c hc

@[simp]
theorem runHostCalls_nil (s : Module) : runHostCalls [] s = ⟨(), s, []⟩ := rfl

@[simp]
theorem runHostCalls_cons (c : HostCall) (i : Inputs) (rest : List (HostCall × Inputs))
    (s : Module) :
    runHostCalls ((c, i) :: rest) s =
      ⟨(), (runHostCalls rest (c.run i s).state).state,
        (c.run i s).trace ++ (runHostCalls rest (c.run i s).state).trace⟩ := rfl

theorem run_host_rebind (cfg : telemetryConfig_t) (i : Inputs) (s : Module) :
    (HostCall.useTelemetryConfig cfg).run i s = ⟨(), { s with telemetryConfig := cfg }, []⟩ := rfl

theorem run_host_entry (e : EntryPoint) (i : Inputs) (s : Module) :
    (HostCall.entry e).run i s = e.run i s := rfl

/-- A sequence of host calls without configuration change is the sequence of
its entry-point calls. -/
theorem runHostCalls_entries (steps : List (EntryPoint × Inputs)) : ∀ s : Module,
    runHostCalls (steps.map fun st => (HostCall.entry st.1, st.2)) s = runCalls steps s := by
  induction steps with
  | nil => intro s; rfl
  | cons st rest ih =>
    intro s
    obtain ⟨e, i⟩ := st
    simp [run_host_entry, ih]

/-- One host call keeps "flag false implies Disabled", unless it is an
`initTelemetry` that finds the configuration unusable while Enabled. -/
theorem host_step_gate (c : HostCall) (hc : c.isLifecycle = true) (i : Inputs) (s : Module)
    (hinv : s.isTelemetryConfigurationValid = false → s.telemetryEnabled = false)
    (hsafe : unusableReinit c i s = false) :
    (c.run i s).state.isTelemetryConfigurationValid = false →
      (c.run i s).state.telemetryEnabled = false := by
  cases c with
  | useTelemetryConfig cfg =>
    rw [run_host_rebind]
    exact hinv
  | entry e =>
    rw [run_host_entry]
    apply lifecycle_step_gate e hc i s hinv
    rintro ⟨he, hen, hcan⟩
    subst he
    simp [unusableReinit, hen, hcan] at hsafe

theorem host_run_gate (steps : List (HostCall × Inputs))
    (hs : ∀ st ∈ steps, st.1.isLifecycle = true) : ∀ s : Module,
    (s.isTelemetryConfigurationValid = false → s.telemetryEnabled = false) →
    reinitSafe steps s = true →
    (runHostCalls steps s).state.isTelemetryConfigurationValid = false →
      (runHostCalls steps s).state.telemetryEnabled = false := by
  induction steps with
  | nil => intro s hinv _; simpa using hinv
  | cons st rest ih =>
    intro s hinv hsafe
    obtain ⟨c, i⟩ := st
    simp only [reinitSafe, Bool.and_eq_true, Bool.not_eq_true'] at hsafe
    have hstep := host_step_gate c (hs (c, i) (List.mem_cons_self _ _)) i s hinv hsafe.1
    simpa using ih (fun st hst => hs st (List.mem_cons_of_mem _ hst)) _ hstep hsafe.2

/-- One lifecycle entry point of a provider without port operations makes
neither acquire nor release calls. -/
theorem lifecycle_step_neutral (e : EntryPoint) (he : e.isLifecycle = true) (i : Inputs)
    (s : Module)
    (h1 : s.telemetryConfig.telemetry_provider ≠ TELEMETRY_PROVIDER_FRSKY)
    (h2 : s.telemetryConfig.telemetry_provider ≠ TELEMETRY_PROVIDER_HOTT) :
    ∀ c ∈ calls (e.run i s).trace, isAcquire c = false ∧ isRelease c = false := by
  have h := lifecycle_run_neutral [(e, i)]
    (fun st hst => by simp only [List.mem_singleton] at hst; subst hst; exact he) s h1 h2
  simpa using h

/-- One host call keeps the port-held flag in agreement with the statics,
unless it is a configuration change that replaces the provider while Enabled. -/
theorem host_step_held (c : HostCall) (hc : c.isLifecycle = true) (i : Inputs) (s : Module)
    (h : Bool) (hm : heldMatches s h) (hkept : providerReplaced c s = false) :
    heldMatches (c.run i s).state (heldAfter h (calls (c.run i s).trace)) := by
  cases c with
  | useTelemetryConfig cfg =>
    rw [run_host_rebind]
    simp only [calls, List.map_nil, heldAfter]
    cases hen : s.telemetryEnabled
    · have hh : h = false := by
        by_cases hp : s.telemetryConfig.telemetry_provider = TELEMETRY_PROVIDER_FRSKY ∨
            s.telemetryConfig.telemetry_provider = TELEMETRY_PROVIDER_HOTT
        · rw [hm.1 hp, hen]
        · exact hm.2 hp
      exact ⟨fun _ => by simp [hh, hen], fun _ => hh⟩
    · have hsame : cfg.telemetry_provider = s.telemetryConfig.telemetry_provider := by
        simpa [providerReplaced, hen] using hkept
      refine ⟨fun hp => ?_, fun hp => ?_⟩
      · simp only [hsame] at hp
        show h = true
        rw [hm.1 hp, hen]
      · simp only [hsame] at hp
        exact hm.2 hp
  | entry e =>
    rw [run_host_entry]
    by_cases hp : s.telemetryConfig.telemetry_provider = TELEMETRY_PROVIDER_FRSKY ∨
        s.telemetryConfig.telemetry_provider = TELEMETRY_PROVIDER_HOTT
    · obtain ⟨_, a2, a3, _⟩ := lifecycle_step_alt e hc i s h hm.1
      refine ⟨fun _ => a2 hp, fun hn => ?_⟩
      rw [a3] at hn
      exact absurd hp hn
    · have h1 : s.telemetryConfig.telemetry_provider ≠ TELEMETRY_PROVIDER_FRSKY :=
        fun hx => hp (Or.inl hx)
      have h2 : s.telemetryConfig.telemetry_provider ≠ TELEMETRY_PROVIDER_HOTT :=
        fun hx => hp (Or.inr hx)
      have hcfg : (e.run i s).state.telemetryConfig = s.telemetryConfig :=
        (lifecycle_step_alt e hc i s false (fun hx => absurd hx hp)).2.2.1
      rw [(alternates_neutral _ (lifecycle_step_neutral e hc i s h1 h2) h).2]
      refine ⟨fun hq => ?_, fun _ => hm.2 hp⟩
      rw [hcfg] at hq
      exact absurd hq hp

theorem host_run_held (steps : List (HostCall × Inputs))
    (hs : ∀ st ∈ steps, st.1.isLifecycle = true) : ∀ (s : Module) (h : Bool),
    heldMatches s h → providerKept steps s = true →
    heldMatches (runHostCalls steps s).state
      (heldAfter h (calls (runHostCalls steps s).trace)) := by
  induction steps with
  | nil => intro s h hm _; simpa [calls, heldAfter] using hm
  | cons st rest ih =>
    intro s h hm hkept
    obtain ⟨c, i⟩ := st
    simp only [providerKept, Bool.and_eq_true, Bool.not_eq_true'] at hkept
    have hstep := host_step_held c (hs (c, i) (List.mem_cons_self _ _)) i s h hm hkept.1
    have := ih (fun st hst => hs st (List.mem_cons_of_mem _ hst)) _ _ hstep hkept.2
    simpa [calls_append, heldAfter_append] using this

/-- An `initTelemetry` that finds the configuration unusable while the Enabled
State is Enabled closes the gate and releases nothing. -/
theorem init_unusable_while_enabled (i : Inputs) (s : Module)
    (hen : s.telemetryEnabled = true)
    (hcan : (canUseTelemetryWithCurrentConfiguration i s).val = false) :
    (initTelemetry i s).state.isTelemetryConfigurationValid = false ∧
    (initTelemetry i s).state.telemetryEnabled = true ∧
    ∀ c ∈ calls (initTelemetry i s).trace, isAcquire c = false ∧ isRelease c = false := by
  rw [canUse_run] at hcan
  obtain ⟨_, f2, f3, _⟩ := afterInitFlags_fields i s
  have hv : (afterInitFlags i s).isTelemetryConfigurationValid = false := by
    rw [f3]
    exact hcan
  have hcheck : checkTelemetryState i (afterInitFlags i s) = ⟨(), afterInitFlags i s, []⟩ := by
    rw [check_run]
    simp [hv]
  rw [init_run, hcheck]
  refine ⟨hv, by rw [← hen]; exact f2, ?_⟩
  simp only [List.append_nil]
  exact calls_initTrace_neutral i (afterInitFlags i s)

/-- The proviso on the provider is needed: when a configuration change replaces
FrSky by MSP while the port is held, a later disarm releases nothing, and after
an unusable re-initialisation the flag is false and the Enabled State Disabled
with the FrSky acquire still unmatched. -/
theorem provider_change_leaves_acquire_unmatched :
    reinitSafe providerSwapRun (initialModule ⟨TELEMETRY_PROVIDER_FRSKY, false⟩) = true ∧
    providerKept providerSwapRun (initialModule ⟨TELEMETRY_PROVIDER_FRSKY, false⟩) = false ∧
    (runHostCalls providerSwapRun
      (initialModule ⟨TELEMETRY_PROVIDER_FRSKY, false⟩)).state.isTelemetryConfigurationValid
        = false ∧
    (runHostCalls providerSwapRun
      (initialModule ⟨TELEMETRY_PROVIDER_FRSKY, false⟩)).state.telemetryEnabled = false ∧
    heldAfter false (calls (runHostCalls providerSwapRun
      (initialModule ⟨TELEMETRY_PROVIDER_FRSKY, false⟩)).trace) = true := by
  decide

theorem calls_handleTrace (i : Inputs) (s : Module) :
    calls (handleTrace i s) =
      if s.telemetryConfig.telemetry_provider = TELEMETRY_PROVIDER_FRSKY then
        [ProviderCall.handleFrSkyTelemetry]
      else if s.telemetryConfig.telemetry_provider = TELEMETRY_PROVIDER_HOTT then
        [ProviderCall.handleHoTTTelemetry]
      else if s.telemetryConfig.telemetry_provider = TELEMETRY_PROVIDER_MSP then
        [ProviderCall.handleMSPTelemetry]
      else [] := by
  by_cases h1 : s.telemetryConfig.telemetry_provider = TELEMETRY_PROVIDER_FRSKY
  · simp [calls, handleTrace, h1, TELEMETRY_PROVIDER_FRSKY, TELEMETRY_PROVIDER_HOTT,
      TELEMETRY_PROVIDER_MSP]
  · by_cases h2 : s.telemetryConfig.telemetry_provider = TELEMETRY_PROVIDER_HOTT
    · simp [calls, handleTrace, h2, TELEMETRY_PROVIDER_FRSKY, TELEMETRY_PROVIDER_HOTT,
        TELEMETRY_PROVIDER_MSP]
    · by_cases h3 : s.telemetryConfig.telemetry_provider = TELEMETRY_PROVIDER_MSP
      · simp [calls, handleTrace, h3, TELEMETRY_PROVIDER_FRSKY, TELEMETRY_PROVIDER_HOTT,
          TELEMETRY_PROVIDER_MSP]
      · simp [calls, handleTrace, h1, h2, h3]

theorem handle_calls (i : Inputs) (s : Module) :
    calls (handleTelemetry i s).trace =
      if s.isTelemetryConfigurationValid = true ∧ desired i s = true then calls (handleTrace i s)
      else [] := by
  rw [handle_run]
  split <;> simp [calls]

/-- C7: `handleTelemetry` leaves the statics (Enabled State, validity flag,
port-shared flag) unchanged; for a configuration naming FrSky, HoTT or MSP its
provider calls are exactly one handle of that provider if the validity flag is
true and `determineNewTelemetryEnabledState` returns true, and none otherwise;
the cached Enabled State has no influence on the calls. -/
theorem handleTelemetry_contract (i : Inputs) (s : Module) :
    (handleTelemetry i s).state = s ∧
    (s.telemetryConfig.telemetry_provider = TELEMETRY_PROVIDER_FRSKY →
      calls (handleTelemetry i s).trace =
        if s.isTelemetryConfigurationValid = true ∧
            (determineNewTelemetryEnabledState i s).val = true
        then [ProviderCall.handleFrSkyTelemetry] else []) ∧
    (s.telemetryConfig.telemetry_provider = TELEMETRY_PROVIDER_HOTT →
      calls (handleTelemetry i s).trace =
        if s.isTelemetryConfigurationValid = true ∧
            (determineNewTelemetryEnabledState i s).val = true
        then [ProviderCall.handleHoTTTelemetry] else []) ∧
    (s.telemetryConfig.telemetry_provider = TELEMETRY_PROVIDER_MSP →
      calls (handleTelemetry i s).trace =
        if s.isTelemetryConfigurationValid = true ∧
            (determineNewTelemetryEnabledState i s).val = true
        then [ProviderCall.handleMSPTelemetry] else []) ∧
    ∀ b : Bool, calls (handleTelemetry i { s with telemetryEnabled := b }).trace =
      calls (handleTelemetry i s).trace := by
  refine ⟨?_, ?_, ?_, ?_, ?_⟩
  · rw [handle_run]
    split <;> rfl
  · intro hp
    rw [handle_calls, calls_handleTrace]
    simp [hp, desired]
  · intro hp
    rw [handle_calls, calls_handleTrace]
    simp [hp, desired, TELEMETRY_PROVIDER_HOTT, TELEMETRY_PROVIDER_FRSKY]
  · intro hp
    rw [handle_calls, calls_handleTrace]
    simp [hp, desired, TELEMETRY_PROVIDER_HOTT, TELEMETRY_PROVIDER_FRSKY, TELEMETRY_PROVIDER_MSP]
  · intro b
    rw [handle_calls, handle_calls, calls_handleTrace, calls_handleTrace, desired_withEnabled]

/-- Witness for C7: MSP is serviced on a dedicated port
although the Enabled State is still Disabled, and HoTT is not serviced behind a
closed gate. -/
theorem handleTelemetry_contract_witness :
    calls (handleTelemetry (sampleInputs false false false)
      (sampleModule true false false TELEMETRY_PROVIDER_MSP)).trace =
      [ProviderCall.handleMSPTelemetry] ∧
    calls (handleTelemetry (sampleInputs false true true)
      (sampleModule false true false TELEMETRY_PROVIDER_HOTT)).trace = [] :=
  ⟨(handleTelemetry_contract (sampleInputs false false false)
      (sampleModule true false false TELEMETRY_PROVIDER_MSP)).2.2.2.1 rfl,
   (handleTelemetry_contract (sampleInputs false true true)
      (sampleModule false true false TELEMETRY_PROVIDER_HOTT)).2.2.1 rfl⟩

/-- Every recorded call is made under the provider test of its own variant, in
the statics and under the answers of the running call. -/
theorem mem_configureTrace (i : Inputs) (s : Module) (x : Emitted) (hx : x ∈ configureTrace i s) :
    isAcquire x.call = true ∧ x.state = s ∧ x.inputs = i ∧
      providerOf x.call = s.telemetryConfig.telemetry_provider := by
  simp only [configureTrace, List.mem_append] at hx
  rcases hx with hx | hx <;>
    · split at hx
      · rename_i hp
        simp only [List.mem_singleton] at hx
        subst hx
        simp [isAcquire, providerOf, hp]
      · simp at hx

theorem mem_freeTrace (i : Inputs) (s : Module) (x : Emitted) (hx : x ∈ freeTrace i s) :
    isRelease x.call = true ∧ x.state = s ∧ x.inputs = i ∧
      providerOf x.call = s.telemetryConfig.telemetry_provider := by
  simp only [freeTrace, List.mem_append] at hx
  rcases hx with hx | hx <;>
    · split at hx
      · rename_i hp
        simp only [List.mem_singleton] at hx
        subst hx
        simp [isRelease, providerOf, hp]
      · simp at hx

theorem mem_initTrace (i : Inputs) (s : Module) (x : Emitted) (hx : x ∈ initTrace i s) :
    isHandle x.call = false ∧ x.state = s ∧ x.inputs = i ∧
      providerOf x.call = s.telemetryConfig.telemetry_provider := by
  simp only [initTrace, List.mem_append] at hx
  rcases hx with hx | hx | hx <;>
    · split at hx
      · rename_i hp
        simp only [List.mem_singleton] at hx
        subst hx
        simp [isHandle, providerOf, hp]
      · simp at hx

theorem mem_handleTrace (i : Inputs) (s : Module) (x : Emitted) (hx : x ∈ handleTrace i s) :
    isHandle x.call = true ∧ x.state = s ∧ x.inputs = i ∧
      providerOf x.call = s.telemetryConfig.telemetry_provider := by
  simp only [handleTrace, List.mem_append] at hx
  rcases hx with hx | hx | hx <;>
    · split at hx
      · rename_i hp
        simp only [List.mem_singleton] at hx
        subst hx
        simp [isHandle, providerOf, hp]
      · simp at hx

/-- The calls of `checkTelemetryState` are port operations of the configured
provider. -/
theorem mem_check_trace (i : Inputs) (s : Module) (x : Emitted)
    (hx : x ∈ (checkTelemetryState i s).trace) :
    isHandle x.call = false ∧ providerOf x.call = s.telemetryConfig.telemetry_provider := by
  rw [check_run] at hx
  split at hx
  · simp at hx
  · split at hx
    · simp at hx
    · simp only at hx
      split at hx
      · obtain ⟨h1, _, _, h4⟩ := mem_configureTrace i s x hx
        refine ⟨?_, h4⟩
        cases hc : x.call <;> simp [hc, isAcquire] at h1 <;> simp [isHandle]
      · obtain ⟨h1, _, _, h4⟩ := mem_freeTrace i s x hx
        refine ⟨?_, h4⟩
        cases hc : x.call <;> simp [hc, isRelease] at h1 <;> simp [isHandle]

/-- What any entry point records: calls of the configured provider only, and
handle calls only with the gate open and the Desired State true; the bound
configuration is left as it is. -/
theorem entry_step (e : EntryPoint) (i : Inputs) (s : Module) :
    (e.run i s).state.telemetryConfig = s.telemetryConfig ∧
    ∀ x ∈ (e.run i s).trace,
      providerOf x.call = s.telemetryConfig.telemetry_provider ∧
      (isHandle x.call = true →
        x.state.isTelemetryConfigurationValid = true ∧ desired x.inputs x.state = true) := by
  cases e with
  | initTelemetry =>
    rw [run_entry_init, init_run]
    refine ⟨by rw [(check_config i _).1]; rfl, ?_⟩
    intro x hx
    rcases List.mem_append.1 hx with hx | hx
    · obtain ⟨h1, _, _, h4⟩ := mem_initTrace i _ x hx
      exact ⟨h4, fun h => by rw [h1] at h; cases h⟩
    · obtain ⟨h1, h4⟩ := mem_check_trace i _ x hx
      exact ⟨h4, fun h => by rw [h1] at h; cases h⟩
  | checkTelemetryState =>
    rw [run_entry_check]
    refine ⟨(check_config i s).1, ?_⟩
    intro x hx
    obtain ⟨h1, h4⟩ := mem_check_trace i _ x hx
    exact ⟨h4, fun h => by rw [h1] at h; cases h⟩
  | handleTelemetry =>
    rw [run_entry_handle, handle_run]
    split
    · rename_i hg
      refine ⟨rfl, ?_⟩
      intro x hx
      obtain ⟨_, h2, h3, h4⟩ := mem_handleTrace i s x hx
      refine ⟨h4, fun _ => ?_⟩
      rw [h2, h3]
      exact hg
    · exact ⟨rfl, fun x hx => by cases hx⟩
  | getTelemetryProviderBaudRate =>
    rw [run_entry_baud, baud_run]
    split
    · rename_i hp
      refine ⟨rfl, ?_⟩
      intro x hx
      simp only [List.mem_singleton] at hx
      subst hx
      simp [providerOf, hp, isHandle]
    · split
      · rename_i hp
        refine ⟨rfl, ?_⟩
        intro x hx
        simp only [List.mem_singleton] at hx
        subst hx
        simp [providerOf, hp, isHandle]
      · exact ⟨rfl, fun x hx => by cases hx⟩
  | freeTelemetryPort =>
    rw [run_entry_free, free_run]
    refine ⟨rfl, ?_⟩
    intro x hx
    obtain ⟨h1, _, _, h4⟩ := mem_freeTrace i s x hx
    refine ⟨h4, ?_⟩
    cases hc : x.call <;> simp [hc, isRelease] at h1 <;> simp [isHandle]

theorem entry_run (steps : List (EntryPoint × Inputs)) : ∀ s : Module,
    (runCalls steps s).state.telemetryConfig = s.telemetryConfig ∧
    ∀ x ∈ (runCalls steps s).trace,
      providerOf x.call = s.telemetryConfig.telemetry_provider ∧
      (isHandle x.call = true →
        x.state.isTelemetryConfigurationValid = true ∧ desired x.inputs x.state = true) := by
  induction steps with
  | nil => intro s; simp
  | cons st rest ih =>
    intro s
    obtain ⟨e, i⟩ := st
    obtain ⟨a1, a2⟩ := entry_step e i s
    obtain ⟨b1, b2⟩ := ih (e.run i s).state
    rw [a1] at b1 b2
    refine ⟨by simpa using b1, ?_⟩
    intro x hx
    simp only [runCalls_cons, List.mem_append] at hx
    rcases hx with hx | hx
    · exact a2 x hx
    · exact b2 x hx

/-- C9: for a fixed configuration, every provider operation (initialize,
get-baud-rate, configure-port, free-port, handle) emitted by any sequence of
`initTelemetry`, `getTelemetryProviderBaudRate`, `checkTelemetryState`,
`freeTelemetryPort` and `handleTelemetry` calls belongs to the provider named by
the configuration, and so all the operations emitted by one entry-point call
belong to one provider variant; the configuration stays bound as it was. -/
theorem provider_exclusivity (s : Module) (steps : List (EntryPoint × Inputs)) (e : EntryPoint)
    (i : Inputs) :
    (∀ x ∈ (runCalls steps s).trace,
      providerOf x.call = s.telemetryConfig.telemetry_provider) ∧
    (runCalls steps s).state.telemetryConfig = s.telemetryConfig ∧
    (∀ x ∈ (e.run i s).trace, ∀ y ∈ (e.run i s).trace, providerOf x.call = providerOf y.call) := by
  refine ⟨fun x hx => ((entry_run steps s).2 x hx).1, (entry_run steps s).1, ?_⟩
  intro x hx y hy
  rw [((entry_step e i s).2 x hx).1, ((entry_step e i s).2 y hy).1]

/-! ## C10: the configuration gate -/

/-- C10: `canUseTelemetryWithCurrentConfiguration` returns true exactly when the
telemetry feature is enabled and the serial driver reports that a port can be
opened for telemetry, false when either is false; it changes no static and calls
no provider. -/
theorem canUseTelemetryWithCurrentConfiguration_contract (i : Inputs) (s : Module) :
    ((canUseTelemetryWithCurrentConfiguration i s).val = true ↔
      (i.featureTelemetry = true ∧ i.canOpenSerialPortTelemetry = true)) ∧
    (canUseTelemetryWithCurrentConfiguration i s).val =
      (i.featureTelemetry && i.canOpenSerialPortTelemetry) ∧
    (canUseTelemetryWithCurrentConfiguration i s).state = s ∧
    (canUseTelemetryWithCurrentConfiguration i s).trace = [] := by
  rw [canUse_run]
  simp

/-! ## C11: the baud-rate query -/

/-- C11: `getTelemetryProviderBaudRate` returns the FrSky provider's baud rate
when the configuration names FrSky, the HoTT provider's baud rate when it names
HoTT, and 0 when it names MSP or any value outside the three providers; it
queries the configured provider only (one query for FrSky or HoTT, none
otherwise) and leaves the statics unchanged. -/
theorem getTelemetryProviderBaudRate_contract (i : Inputs) (s : Module) :
    (s.telemetryConfig.telemetry_provider = TELEMETRY_PROVIDER_FRSKY →
      (getTelemetryProviderBaudRate i s).val = i.frSkyBaudRate ∧
      calls (getTelemetryProviderBaudRate i s).trace =
        [ProviderCall.getFrSkyTelemetryProviderBaudRate]) ∧
    (s.telemetryConfig.telemetry_provider = TELEMETRY_PROVIDER_HOTT →
      (getTelemetryProviderBaudRate i s).val = i.hottBaudRate ∧
      calls (getTelemetryProviderBaudRate i s).trace =
        [ProviderCall.getHoTTTelemetryProviderBaudRate]) ∧
    (s.telemetryConfig.telemetry_provider = TELEMETRY_PROVIDER_MSP →
      (getTelemetryProviderBaudRate i s).val = 0 ∧
      (getTelemetryProviderBaudRate i s).trace = []) ∧
    ((s.telemetryConfig.telemetry_provider ≠ TELEMETRY_PROVIDER_FRSKY ∧
        s.telemetryConfig.telemetry_provider ≠ TELEMETRY_PROVIDER_HOTT ∧
        s.telemetryConfig.telemetry_provider ≠ TELEMETRY_PROVIDER_MSP) →
      (getTelemetryProviderBaudRate i s).val = 0 ∧
      (getTelemetryProviderBaudRate i s).trace = []) ∧
    (getTelemetryProviderBaudRate i s).state = s := by
  rw [baud_run]
  refine ⟨?_, ?_, ?_, ?_, ?_⟩
  · intro hp
    simp [hp, calls]
  · intro hp
    simp [hp, calls, TELEMETRY_PROVIDER_FRSKY, TELEMETRY_PROVIDER_HOTT]
  · intro hp
    simp [hp, TELEMETRY_PROVIDER_FRSKY, TELEMETRY_PROVIDER_HOTT, TELEMETRY_PROVIDER_MSP]
  · rintro ⟨h1, h2, _⟩
    simp [h1, h2]
  · split
    · rfl
    · split <;> rfl

/-- Witness for C11: the four cases at concrete configurations. -/
theorem getTelemetryProviderBaudRate_contract_witness :
    ((getTelemetryProviderBaudRate (sampleInputs false false false)
        (sampleModule true false false TELEMETRY_PROVIDER_FRSKY)).val = 9600 ∧
      calls (getTelemetryProviderBaudRate (sampleInputs false false false)
        (sampleModule true false false TELEMETRY_PROVIDER_FRSKY)).trace =
        [ProviderCall.getFrSkyTelemetryProviderBaudRate]) ∧
    ((getTelemetryProviderBaudRate (sampleInputs false false false)
        (sampleModule true false false TELEMETRY_PROVIDER_HOTT)).val = 19200 ∧
      calls (getTelemetryProviderBaudRate (sampleInputs false false false)
        (sampleModule true false false TELEMETRY_PROVIDER_HOTT)).trace =
        [ProviderCall.getHoTTTelemetryProviderBaudRate]) ∧
    ((getTelemetryProviderBaudRate (sampleInputs false false false)
        (sampleModule true false false TELEMETRY_PROVIDER_MSP)).val = 0 ∧
      (getTelemetryProviderBaudRate (sampleInputs false false false)
        (sampleModule true false false TELEMETRY_PROVIDER_MSP)).trace = []) ∧
    ((getTelemetryProviderBaudRate (sampleInputs false false false)
        (sampleModule true false false 7)).val = 0 ∧
      (getTelemetryProviderBaudRate (sampleInputs false false false)
        (sampleModule true false false 7)).trace = []) :=
  ⟨(getTelemetryProviderBaudRate_contract (sampleInputs false false false)
      (sampleModule true false false TELEMETRY_PROVIDER_FRSKY)).1 rfl,
   (getTelemetryProviderBaudRate_contract (sampleInputs false false false)
      (sampleModule true false false TELEMETRY_PROVIDER_HOTT)).2.1 rfl,
   (getTelemetryProviderBaudRate_contract (sampleInputs false false false)
      (sampleModule true false false TELEMETRY_PROVIDER_MSP)).2.2.1 rfl,
   (getTelemetryProviderBaudRate_contract (sampleInputs false false false)
      (sampleModule true false false 7)).2.2.2.1 (by decide)⟩

/-! ## C12: purity of the State Evaluator -/

/-- C12: for two module states that agree on the Port-Shared flag and on
`telemetry_switch`, under inputs that agree on the armed flag and on the RC
telemetry switch position, but differ arbitrarily in Enabled State, validity
flag, provider and every other input, `determineNewTelemetryEnabledState`
returns the same result; a call leaves every static unchanged and calls no
provider, so a repeated call returns the same value. -/
theorem determineNewTelemetryEnabledState_pure (i1 i2 : Inputs) (s1 s2 : Module)
    (hshared : s1.telemetryPortIsShared = s2.telemetryPortIsShared)
    (hswitch : s1.telemetryConfig.telemetry_switch = s2.telemetryConfig.telemetry_switch)
    (harmed : i1.ARMED = i2.ARMED)
    (hrc : i1.rcOptions BOXTELEMETRY = i2.rcOptions BOXTELEMETRY) :
    (determineNewTelemetryEnabledState i1 s1).val =
      (determineNewTelemetryEnabledState i2 s2).val ∧
    (determineNewTelemetryEnabledState i1 s1).state = s1 ∧
    (determineNewTelemetryEnabledState i1 s1).trace = [] ∧
    (determineNewTelemetryEnabledState i1 (determineNewTelemetryEnabledState i1 s1).state).val =
      (determineNewTelemetryEnabledState i1 s1).val := by
  simp [determine_run, hshared, hswitch, harmed, hrc]

/-- Witness for C12: two states with different Enabled State, validity flag and
provider, under inputs with different port answers and other switch positions. -/
theorem determineNewTelemetryEnabledState_pure_witness :
    (determineNewTelemetryEnabledState telemetryBoxOnInputs
        (switchModule true false TELEMETRY_PROVIDER_FRSKY)).val =
      (determineNewTelemetryEnabledState allBoxesOnInputs
        (switchModule false true TELEMETRY_PROVIDER_MSP)).val ∧
    (determineNewTelemetryEnabledState telemetryBoxOnInputs
        (switchModule true false TELEMETRY_PROVIDER_FRSKY)).state =
      switchModule true false TELEMETRY_PROVIDER_FRSKY ∧
    (determineNewTelemetryEnabledState telemetryBoxOnInputs
        (switchModule true false TELEMETRY_PROVIDER_FRSKY)).trace = [] ∧
    (determineNewTelemetryEnabledState telemetryBoxOnInputs
        (determineNewTelemetryEnabledState telemetryBoxOnInputs
          (switchModule true false TELEMETRY_PROVIDER_FRSKY)).state).val =
      (determineNewTelemetryEnabledState telemetryBoxOnInputs
        (switchModule true false TELEMETRY_PROVIDER_FRSKY)).val :=
  determineNewTelemetryEnabledState_pure telemetryBoxOnInputs allBoxesOnInputs
    (switchModule true false TELEMETRY_PROVIDER_FRSKY)
    (switchModule false true TELEMETRY_PROVIDER_MSP) rfl rfl (by decide) (by decide)

/-! ## C13: an unrecognised provider -/

theorem providerOf_known (c : ProviderCall) :
    providerOf c = TELEMETRY_PROVIDER_FRSKY ∨ providerOf c = TELEMETRY_PROVIDER_HOTT ∨
      providerOf c = TELEMETRY_PROVIDER_MSP := by
  cases c <;> simp [providerOf]

/-- C13: if the provider field of the configuration is outside FrSky, HoTT and
MSP, then every sequence of entry-point calls (`initTelemetry`,
`checkTelemetryState`, `freeTelemetryPort`, `handleTelemetry`, and
`getTelemetryProviderBaudRate` as well) under any inputs emits no provider
operation at all. -/
theorem unrecognized_provider_silent (s : Module) (steps : List (EntryPoint × Inputs))
    (h1 : s.telemetryConfig.telemetry_provider ≠ TELEMETRY_PROVIDER_FRSKY)
    (h2 : s.telemetryConfig.telemetry_provider ≠ TELEMETRY_PROVIDER_HOTT)
    (h3 : s.telemetryConfig.telemetry_provider ≠ TELEMETRY_PROVIDER_MSP) :
    (runCalls steps s).trace = [] := by
  apply List.eq_nil_iff_forall_not_mem.2
  intro x hx
  have hp := ((entry_run steps s).2 x hx).1
  rcases providerOf_known x.call with h | h | h
  · exact h1 (hp ▸ h)
  · exact h2 (hp ▸ h)
  · exact h3 (hp ▸ h)

/-- Witness for C13: provider tag 7, a usable configuration on a dedicated
port, one call of each entry point. -/
theorem unrecognized_provider_silent_witness :
    (runCalls [(EntryPoint.initTelemetry, sampleInputs false true true),
        (EntryPoint.checkTelemetryState, sampleInputs false true true),
        (EntryPoint.handleTelemetry, sampleInputs false true true),
        (EntryPoint.freeTelemetryPort, sampleInputs false true true),
        (EntryPoint.getTelemetryProviderBaudRate, sampleInputs false true true)]
      (initialModule ⟨7, false⟩)).trace = [] :=
  unrecognized_provider_silent (initialModule ⟨7, false⟩) _ (by decide) (by decide) (by decide)

/-! ## C14, C15: lag collapse and idempotence of `checkTelemetryState` -/

/-- C14: for every state with the Configuration Validity Flag true and every
input, after one call of `checkTelemetryState` the Enabled State equals the
Desired State that `determineNewTelemetryEnabledState` computes from those
inputs, before the call and after it alike; so the two differ only between an
input change and the next `checkTelemetryState`. -/
theorem checkTelemetryState_lag_collapse (i : Inputs) (s : Module)
    (hv : s.isTelemetryConfigurationValid = true) :
    (checkTelemetryState i s).state.telemetryEnabled =
      (determineNewTelemetryEnabledState i s).val ∧
    (checkTelemetryState i s).state.telemetryEnabled =
      (determineNewTelemetryEnabledState i (checkTelemetryState i s).state).val := by
  rw [check_state_valid i s hv]
  have h := desired_withEnabled i s (desired i s)
  simp only [desired] at h
  exact ⟨rfl, h.symm⟩

/-- Witness for C14: HoTT on a shared port, Enabled, then disarmed. -/
theorem checkTelemetryState_lag_collapse_witness :
    (checkTelemetryState (sampleInputs true false false)
        (sampleModule true true true TELEMETRY_PROVIDER_HOTT)).state.telemetryEnabled =
      (determineNewTelemetryEnabledState (sampleInputs true false false)
        (sampleModule true true true TELEMETRY_PROVIDER_HOTT)).val ∧
    (checkTelemetryState (sampleInputs true false false)
        (sampleModule true true true TELEMETRY_PROVIDER_HOTT)).state.telemetryEnabled =
      (determineNewTelemetryEnabledState (sampleInputs true false false)
        (checkTelemetryState (sampleInputs true false false)
          (sampleModule true true true TELEMETRY_PROVIDER_HOTT)).state).val :=
  checkTelemetryState_lag_collapse (sampleInputs true false false)
    (sampleModule true true true TELEMETRY_PROVIDER_HOTT) rfl

theorem check_noop (i : Inputs) (s : Module)
    (h : s.isTelemetryConfigurationValid = false ∨ desired i s = s.telemetryEnabled) :
    checkTelemetryState i s = ⟨(), s, []⟩ := by
  rw [check_run]
  rcases h with h | h
  · simp [h]
  · simp [h]

theorem check_twice (i : Inputs) (s : Module) :
    checkTelemetryState i (checkTelemetryState i s).state =
      ⟨(), (checkTelemetryState i s).state, []⟩ := by
  apply check_noop
  cases hv : s.isTelemetryConfigurationValid
  · left
    rw [(check_config i s).2.1, hv]
  · right
    rw [check_state_valid i s hv, desired_withEnabled]

/-- C15: `checkTelemetryState` is a no-op when nothing diverges and is
idempotent: if the Desired State equals the Enabled State the call emits no
provider call and leaves the whole state unchanged; for every state and every
fixed input, a second call in a row emits nothing and changes nothing, so two
calls yield the same final state and the same provider-call trace as one. -/
theorem checkTelemetryState_idempotent (i : Inputs) (s : Module) :
    ((determineNewTelemetryEnabledState i s).val = s.telemetryEnabled →
      (checkTelemetryState i s).state = s ∧ (checkTelemetryState i s).trace = []) ∧
    (checkTelemetryState i (checkTelemetryState i s).state).trace = [] ∧
    (checkTelemetryState i (checkTelemetryState i s).state).state =
      (checkTelemetryState i s).state ∧
    (runCalls (checkCalls [i, i]) s).state = (runCalls (checkCalls [i]) s).state ∧
    (runCalls (checkCalls [i, i]) s).trace = (runCalls (checkCalls [i]) s).trace := by
  refine ⟨?_, ?_, ?_, ?_, ?_⟩
  · intro h
    rw [check_noop i s (Or.inr h)]
    exact ⟨rfl, rfl⟩
  · rw [check_twice]
  · rw [check_twice]
  · simp [checkCalls, run_entry_check, check_twice]
  · simp [checkCalls, run_entry_check, check_twice]

/-- Witness for C15: FrSky on a dedicated port already Enabled (nothing
diverges), and FrSky acquiring once over two calls. -/
theorem checkTelemetryState_idempotent_witness :
    ((checkTelemetryState (sampleInputs false false false)
        (sampleModule true true false TELEMETRY_PROVIDER_FRSKY)).state =
        sampleModule true true false TELEMETRY_PROVIDER_FRSKY ∧
      (checkTelemetryState (sampleInputs false false false)
        (sampleModule true true false TELEMETRY_PROVIDER_FRSKY)).trace = []) ∧
    (runCalls (checkCalls [sampleInputs false false false, sampleInputs false false false])
        (sampleModule true false false TELEMETRY_PROVIDER_FRSKY)).trace =
      (runCalls (checkCalls [sampleInputs false false false])
        (sampleModule true false false TELEMETRY_PROVIDER_FRSKY)).trace :=
  ⟨(checkTelemetryState_idempotent (sampleInputs false false false)
      (sampleModule true true false TELEMETRY_PROVIDER_FRSKY)).1 rfl,
   (checkTelemetryState_idempotent (sampleInputs false false false)
      (sampleModule true false false TELEMETRY_PROVIDER_FRSKY)).2.2.2.2⟩

/-! ## C16: frame of the cached flags -/

theorem useTelemetryConfig_run (cfg : telemetryConfig_t) (i : Inputs) (s : Module) :
    useTelemetryConfig cfg i s = ⟨(), { s with telemetryConfig := cfg }, []⟩ := rfl

theorem shouldChange_run (b : Bool) (i : Inputs) (s : Module) :
    shouldChangeTelemetryStateNow b i s = ⟨b != s.telemetryEnabled, s, []⟩ := rfl

theorem handle_state (i : Inputs) (s : Module) : (handleTelemetry i s).state = s := by
  rw [handle_run]
  split <;> rfl

theorem baud_state (i : Inputs) (s : Module) : (getTelemetryProviderBaudRate i s).state = s := by
  rw [baud_run]
  split
  · rfl
  · split <;> rfl

/-- C16: `checkTelemetryState`, `handleTelemetry`,
`determineNewTelemetryEnabledState`, `getTelemetryProviderBaudRate` and
`freeTelemetryPort` never modify the Port-Shared flag, the Configuration
Validity Flag or the bound configuration; every function other than
`checkTelemetryState` and `initTelemetry` leaves the Enabled State as it is,
`initTelemetry` changes it only through the `checkTelemetryState` step it ends
with (and keeps the bound configuration), and `useTelemetryConfig` changes the
bound configuration only. -/
theorem cached_flags_frame (i : Inputs) (s : Module) (cfg : telemetryConfig_t) (b : Bool) :
    (sameCachedFlags s (checkTelemetryState i s).state ∧
      sameCachedFlags s (handleTelemetry i s).state ∧
      sameCachedFlags s (determineNewTelemetryEnabledState i s).state ∧
      sameCachedFlags s (getTelemetryProviderBaudRate i s).state ∧
      sameCachedFlags s (freeTelemetryPort i s).state) ∧
    ((handleTelemetry i s).state.telemetryEnabled = s.telemetryEnabled ∧
      (determineNewTelemetryEnabledState i s).state.telemetryEnabled = s.telemetryEnabled ∧
      (getTelemetryProviderBaudRate i s).state.telemetryEnabled = s.telemetryEnabled ∧
      (freeTelemetryPort i s).state.telemetryEnabled = s.telemetryEnabled ∧
      (configureTelemetryPort i s).state.telemetryEnabled = s.telemetryEnabled ∧
      (canUseTelemetryWithCurrentConfiguration i s).state.telemetryEnabled = s.telemetryEnabled ∧
      (shouldChangeTelemetryStateNow b i s).state.telemetryEnabled = s.telemetryEnabled ∧
      (isTelemetryProviderFrSky i s).state.telemetryEnabled = s.telemetryEnabled ∧
      (isTelemetryProviderHoTT i s).state.telemetryEnabled = s.telemetryEnabled ∧
      (isTelemetryProviderMSP i s).state.telemetryEnabled = s.telemetryEnabled ∧
      (useTelemetryConfig cfg i s).state.telemetryEnabled = s.telemetryEnabled) ∧
    ((initTelemetry i s).state.telemetryEnabled =
        (checkTelemetryState i
          { s with
            telemetryPortIsShared := i.isSerialPortFunctionShared
            isTelemetryConfigurationValid :=
              i.featureTelemetry && i.canOpenSerialPortTelemetry }).state.telemetryEnabled ∧
      (initTelemetry i s).state.telemetryConfig = s.telemetryConfig) ∧
    (useTelemetryConfig cfg i s).state = { s with telemetryConfig := cfg } := by
  obtain ⟨c1, c2, c3⟩ := check_config i s
  refine ⟨⟨⟨c3, c2, c1⟩, ?_, ?_, ?_, ?_⟩, ⟨?_, ?_, ?_, ?_, ?_, ?_, ?_, ?_, ?_, ?_, ?_⟩,
    ⟨?_, ?_⟩, rfl⟩
  · rw [handle_state]
    exact ⟨rfl, rfl, rfl⟩
  · rw [determine_eq]
    exact ⟨rfl, rfl, rfl⟩
  · rw [baud_state]
    exact ⟨rfl, rfl, rfl⟩
  · rw [free_run]
    exact ⟨rfl, rfl, rfl⟩
  · rw [handle_state]
  · rw [determine_eq]
  · rw [baud_state]
  · rw [free_run]
  · rw [configure_run]
  · rw [canUse_run]
  · rfl
  · rfl
  · rfl
  · rfl
  · rfl
  · rw [init_run]
    rfl
  · rw [init_run]
    exact (check_config i (afterInitFlags i s)).1

/-! ## C17: the postcondition of `initTelemetry` -/

theorem calls_initTrace (i : Inputs) (s : Module) :
    calls (initTrace i s) =
      if s.telemetryConfig.telemetry_provider = TELEMETRY_PROVIDER_FRSKY then
        [ProviderCall.initFrSkyTelemetry]
      else if s.telemetryConfig.telemetry_provider = TELEMETRY_PROVIDER_HOTT then
        [ProviderCall.initHoTTTelemetry]
      else if s.telemetryConfig.telemetry_provider = TELEMETRY_PROVIDER_MSP then
        [ProviderCall.initMSPTelemetry]
      else [] := by
  by_cases h1 : s.telemetryConfig.telemetry_provider = TELEMETRY_PROVIDER_FRSKY
  · simp [calls, initTrace, h1, TELEMETRY_PROVIDER_FRSKY, TELEMETRY_PROVIDER_HOTT,
      TELEMETRY_PROVIDER_MSP]
  · by_cases h2 : s.telemetryConfig.telemetry_provider = TELEMETRY_PROVIDER_HOTT
    · simp [calls, initTrace, h2, TELEMETRY_PROVIDER_FRSKY, TELEMETRY_PROVIDER_HOTT,
        TELEMETRY_PROVIDER_MSP]
    · by_cases h3 : s.telemetryConfig.telemetry_provider = TELEMETRY_PROVIDER_MSP
      · simp [calls, initTrace, h3, TELEMETRY_PROVIDER_FRSKY, TELEMETRY_PROVIDER_HOTT,
          TELEMETRY_PROVIDER_MSP]
      · simp [calls, initTrace, h1, h2, h3]

theorem init_calls (i : Inputs) (s : Module) :
    calls (initTelemetry i s).trace =
      calls (initTrace i (afterInitFlags i s)) ++
        calls (checkTelemetryState i (afterInitFlags i s)).trace := by
  rw [init_run, calls_append]

/-- C17: `initTelemetry` sets the Port-Shared flag to the answer of
`isSerialPortFunctionShared` and the Configuration Validity Flag to (feature
enabled and port openable), invokes the initialize of the configured provider
once (FrSky, HoTT or MSP) and no other initialize, and then applies one
`checkTelemetryState` step in the state with the two flags set; in particular,
from a Disabled state with a usable configuration, an unshared port and provider
FrSky or HoTT, that step sets the Enabled State to Enabled and emits
configure-port exactly once, and a following `checkTelemetryState`, under any
inputs, emits nothing. -/
theorem initTelemetry_postcondition (i : Inputs) (s : Module) :
    (initTelemetry i s).state =
      (checkTelemetryState i
        { s with
          telemetryPortIsShared := i.isSerialPortFunctionShared
          isTelemetryConfigurationValid :=
            i.featureTelemetry && i.canOpenSerialPortTelemetry }).state ∧
    (initTelemetry i s).state.telemetryPortIsShared = i.isSerialPortFunctionShared ∧
    (initTelemetry i s).state.isTelemetryConfigurationValid =
      (i.featureTelemetry && i.canOpenSerialPortTelemetry) ∧
    (s.telemetryConfig.telemetry_provider = TELEMETRY_PROVIDER_FRSKY →
      calls (initTelemetry i s).trace = ProviderCall.initFrSkyTelemetry ::
        calls (checkTelemetryState i
          { s with
            telemetryPortIsShared := i.isSerialPortFunctionShared
            isTelemetryConfigurationValid :=
              i.featureTelemetry && i.canOpenSerialPortTelemetry }).trace) ∧
    (s.telemetryConfig.telemetry_provider = TELEMETRY_PROVIDER_HOTT →
      calls (initTelemetry i s).trace = ProviderCall.initHoTTTelemetry ::
        calls (checkTelemetryState i
          { s with
            telemetryPortIsShared := i.isSerialPortFunctionShared
            isTelemetryConfigurationValid :=
              i.featureTelemetry && i.canOpenSerialPortTelemetry }).trace) ∧
    (s.telemetryConfig.telemetry_provider = TELEMETRY_PROVIDER_MSP →
      calls (initTelemetry i s).trace = ProviderCall.initMSPTelemetry ::
        calls (checkTelemetryState i
          { s with
            telemetryPortIsShared := i.isSerialPortFunctionShared
            isTelemetryConfigurationValid :=
              i.featureTelemetry && i.canOpenSerialPortTelemetry }).trace) ∧
    (s.telemetryEnabled = false → i.featureTelemetry = true →
      i.canOpenSerialPortTelemetry = true → i.isSerialPortFunctionShared = false →
      (s.telemetryConfig.telemetry_provider = TELEMETRY_PROVIDER_FRSKY →
        calls (initTelemetry i s).trace =
          [ProviderCall.initFrSkyTelemetry, ProviderCall.configureFrSkyTelemetryPort]) ∧
      (s.telemetryConfig.telemetry_provider = TELEMETRY_PROVIDER_HOTT →
        calls (initTelemetry i s).trace =
          [ProviderCall.initHoTTTelemetry, ProviderCall.configureHoTTTelemetryPort]) ∧
      ((s.telemetryConfig.telemetry_provider = TELEMETRY_PROVIDER_FRSKY ∨
          s.telemetryConfig.telemetry_provider = TELEMETRY_PROVIDER_HOTT) →
        (initTelemetry i s).state.telemetryEnabled = true ∧
        (calls (initTelemetry i s).trace).countP isAcquire = 1 ∧
        ∀ j : Inputs, (checkTelemetryState j (initTelemetry i s).state).trace = [])) := by
  have hstate : (initTelemetry i s).state = (checkTelemetryState i (afterInitFlags i s)).state := by
    rw [init_run]
  obtain ⟨f1, f2, f3, f4⟩ := afterInitFlags_fields i s
  obtain ⟨c1, c2, c3⟩ := check_config i (afterInitFlags i s)
  refine ⟨hstate, ?_, ?_, ?_, ?_, ?_, ?_⟩
  · rw [hstate, c3, f4]
  · rw [hstate, c2, f3]
  · intro hp
    rw [init_calls, calls_initTrace, f1]
    simp [hp]
    rfl
  · intro hp
    rw [init_calls, calls_initTrace, f1]
    simp [hp, TELEMETRY_PROVIDER_FRSKY, TELEMETRY_PROVIDER_HOTT]
    rfl
  · intro hp
    rw [init_calls, calls_initTrace, f1]
    simp [hp, TELEMETRY_PROVIDER_FRSKY, TELEMETRY_PROVIDER_HOTT, TELEMETRY_PROVIDER_MSP]
    rfl
  · intro hen hfeat hopen hshared
    have hv : (afterInitFlags i s).isTelemetryConfigurationValid = true := by
      rw [f3, hfeat, hopen]
      rfl
    have hd : ∀ j : Inputs, ∀ t : Module, t.telemetryPortIsShared = false → desired j t = true := by
      intro j t ht
      simp [desired_eq, ht]
    have hd1 : desired i (afterInitFlags i s) = true := hd i _ (by rw [f4, hshared])
    have hcalls : calls (initTelemetry i s).trace =
        calls (initTrace i (afterInitFlags i s)) ++ calls (configureTrace i (afterInitFlags i s)) := by
      rw [init_calls, check_calls_valid i _ hv, hd1, f2, hen]
      simp
    have hen2 : (initTelemetry i s).state.telemetryEnabled = true := by
      rw [hstate, check_state_valid i _ hv, hd1]
    have hnext : ∀ j : Inputs, (checkTelemetryState j (initTelemetry i s).state).trace = [] := by
      intro j
      rw [check_noop j _ (Or.inr _)]
      rw [hen2]
      apply hd
      rw [hstate, c3, f4, hshared]
    rw [hcalls, calls_initTrace, calls_configureTrace, f1]
    refine ⟨?_, ?_, ?_⟩
    · intro hp
      simp [hp]
    · intro hp
      simp [hp, TELEMETRY_PROVIDER_FRSKY, TELEMETRY_PROVIDER_HOTT]
    · intro hp
      refine ⟨hen2, ?_, hnext⟩
      rcases hp with hp | hp <;>
        simp [hp, isAcquire, TELEMETRY_PROVIDER_FRSKY, TELEMETRY_PROVIDER_HOTT]

/-- Witness for C17: scenario A with HoTT, from the initial state. -/
theorem initTelemetry_postcondition_witness :
    calls (initTelemetry (sampleInputs false false false)
      (initialModule ⟨TELEMETRY_PROVIDER_HOTT, false⟩)).trace =
      [ProviderCall.initHoTTTelemetry, ProviderCall.configureHoTTTelemetryPort] ∧
    ((initTelemetry (sampleInputs false false false)
        (initialModule ⟨TELEMETRY_PROVIDER_HOTT, false⟩)).state.telemetryEnabled = true ∧
      (calls (initTelemetry (sampleInputs false false false)
        (initialModule ⟨TELEMETRY_PROVIDER_HOTT, false⟩)).trace).countP isAcquire = 1 ∧
      ∀ j : Inputs, (checkTelemetryState j (initTelemetry (sampleInputs false false false)
        (initialModule ⟨TELEMETRY_PROVIDER_HOTT, false⟩)).state).trace = []) :=
  ⟨((initTelemetry_postcondition (sampleInputs false false false)
      (initialModule ⟨TELEMETRY_PROVIDER_HOTT, false⟩)).2.2.2.2.2.2 rfl rfl rfl rfl).2.1 rfl,
   ((initTelemetry_postcondition (sampleInputs false false false)
      (initialModule ⟨TELEMETRY_PROVIDER_HOTT, false⟩)).2.2.2.2.2.2 rfl rfl rfl rfl).2.2
      (Or.inr rfl)⟩

/-! ## C18: MSP has no port operations -/

/-- After a run of `checkTelemetryState` calls with the gate open, the Enabled
State is the Desired State of the last call. -/
theorem check_seq_last (s : Module) (hv : s.isTelemetryConfigurationValid = true) (i : Inputs)
    (is : List Inputs) : ∀ en : Bool,
    (runCalls (checkCalls (is ++ [i])) { s with telemetryEnabled := en }).state.telemetryEnabled =
      desired i s := by
  induction is with
  | nil =>
    intro en
    have hv2 : ({ s with telemetryEnabled := en } : Module).isTelemetryConfigurationValid = true := hv
    simp [checkCalls, run_entry_check, check_state_valid _ _ hv2, desired_withEnabled]
  | cons j rest ih =>
    intro en
    have hv2 : ({ s with telemetryEnabled := en } : Module).isTelemetryConfigurationValid = true := hv
    have := ih (desired j s)
    simp only [checkCalls] at this
    simp only [checkCalls, List.cons_append, List.map_cons, runCalls_cons, run_entry_check,
      check_state_valid _ _ hv2, desired_withEnabled]
    exact this

theorem msp_call (c : ProviderCall) (h : providerOf c = TELEMETRY_PROVIDER_MSP) :
    c = ProviderCall.initMSPTelemetry ∨ c = ProviderCall.handleMSPTelemetry := by
  cases c <;> simp [providerOf, TELEMETRY_PROVIDER_FRSKY, TELEMETRY_PROVIDER_HOTT,
    TELEMETRY_PROVIDER_MSP] at h ⊢

/-- With MSP configured, what one entry-point call records: an initialize from
`initTelemetry`, a handle from `handleTelemetry`, nothing from the others. -/
theorem msp_entry_step (e : EntryPoint) (i : Inputs) (s : Module)
    (hp : s.telemetryConfig.telemetry_provider = TELEMETRY_PROVIDER_MSP) :
    ∀ x ∈ (e.run i s).trace,
      (x.call = ProviderCall.initMSPTelemetry ∧ e = EntryPoint.initTelemetry) ∨
      (x.call = ProviderCall.handleMSPTelemetry ∧ e = EntryPoint.handleTelemetry) := by
  have h1 : s.telemetryConfig.telemetry_provider ≠ TELEMETRY_PROVIDER_FRSKY := by
    simp [hp, TELEMETRY_PROVIDER_MSP, TELEMETRY_PROVIDER_FRSKY]
  have h2 : s.telemetryConfig.telemetry_provider ≠ TELEMETRY_PROVIDER_HOTT := by
    simp [hp, TELEMETRY_PROVIDER_MSP, TELEMETRY_PROVIDER_HOTT]
  intro x hx
  have hprov := ((entry_step e i s).2 x hx).1
  rw [hp] at hprov
  cases e with
  | initTelemetry =>
    rw [run_entry_init, init_run, check_trace_no_port i (afterInitFlags i s)
      (by simpa [afterInitFlags] using h1) (by simpa [afterInitFlags] using h2),
      List.append_nil] at hx
    have hnh := (mem_initTrace i _ x hx).1
    rcases msp_call x.call hprov with h | h
    · exact Or.inl ⟨h, rfl⟩
    · rw [h] at hnh
      simp [isHandle] at hnh
  | checkTelemetryState =>
    rw [run_entry_check, check_trace_no_port i s h1 h2] at hx
    cases hx
  | handleTelemetry =>
    rw [run_entry_handle, handle_run] at hx
    split at hx
    · have hh := (mem_handleTrace i s x hx).1
      rcases msp_call x.call hprov with h | h
      · rw [h] at hh
        simp [isHandle] at hh
      · exact Or.inr ⟨h, rfl⟩
    · cases hx
  | getTelemetryProviderBaudRate =>
    rw [run_entry_baud, baud_run] at hx
    simp [h1, h2] at hx
  | freeTelemetryPort =>
    rw [run_entry_free, free_run] at hx
    simp [freeTrace, h1, h2] at hx

/-- C18: when the configuration names MSP, `checkTelemetryState` emits no
provider call for any sequence of inputs, and with the Configuration Validity
Flag true it still sets the Enabled State to the Desired State at every call,
for every sequence of inputs; in every state, program start included, the only
operations this module ever emits with MSP configured are the MSP initialize,
from `initTelemetry`, and the MSP handle, from `handleTelemetry`. -/
theorem msp_tracks_state_without_port_calls (s : Module)
    (hp : s.telemetryConfig.telemetry_provider = TELEMETRY_PROVIDER_MSP) :
    (s.isTelemetryConfigurationValid = true →
      (∀ i : Inputs,
        (checkTelemetryState i s).state.telemetryEnabled =
          (determineNewTelemetryEnabledState i s).val ∧
        (checkTelemetryState i s).trace = []) ∧
      (∀ (is : List Inputs) (i : Inputs),
        (runCalls (checkCalls (is ++ [i])) s).state.telemetryEnabled =
          (determineNewTelemetryEnabledState i s).val ∧
        (runCalls (checkCalls (is ++ [i])) s).trace = [])) ∧
    (∀ is : List Inputs, (runCalls (checkCalls is) s).trace = []) ∧
    (∀ (steps : List (EntryPoint × Inputs)), ∀ x ∈ (runCalls steps s).trace,
      x.call = ProviderCall.initMSPTelemetry ∨ x.call = ProviderCall.handleMSPTelemetry) ∧
    (∀ (e : EntryPoint) (i : Inputs), ∀ x ∈ (e.run i s).trace,
      (x.call = ProviderCall.initMSPTelemetry ∧ e = EntryPoint.initTelemetry) ∨
      (x.call = ProviderCall.handleMSPTelemetry ∧ e = EntryPoint.handleTelemetry)) := by
  have h1 : s.telemetryConfig.telemetry_provider ≠ TELEMETRY_PROVIDER_FRSKY := by
    simp [hp, TELEMETRY_PROVIDER_MSP, TELEMETRY_PROVIDER_FRSKY]
  have h2 : s.telemetryConfig.telemetry_provider ≠ TELEMETRY_PROVIDER_HOTT := by
    simp [hp, TELEMETRY_PROVIDER_MSP, TELEMETRY_PROVIDER_HOTT]
  have hs : ({ s with telemetryEnabled := s.telemetryEnabled } : Module) = s := rfl
  refine ⟨fun hv => ⟨?_, ?_⟩, ?_, ?_, ?_⟩
  · intro i
    rw [check_state_valid i s hv, check_trace_no_port i s h1 h2]
    exact ⟨rfl, rfl⟩
  · intro is i
    refine ⟨?_, check_seq_no_port _ s h1 h2⟩
    have := check_seq_last s hv i is s.telemetryEnabled
    rw [hs] at this
    exact this
  · intro is
    exact check_seq_no_port is s h1 h2
  · intro steps x hx
    have := ((entry_run steps s).2 x hx).1
    rw [hp] at this
    exact msp_call x.call this
  · intro e i
    exact msp_entry_step e i s hp

/-- Witness for C18: MSP on a shared port with the gate open, armed then
disarmed (the Enabled State follows and nothing is emitted); and MSP from
program start, where one call of each entry point records the MSP initialize
and the MSP handle only. -/
theorem msp_tracks_state_without_port_calls_witness :
    (((checkTelemetryState (sampleInputs true true false)
          (sampleModule true false true TELEMETRY_PROVIDER_MSP)).state.telemetryEnabled =
          (determineNewTelemetryEnabledState (sampleInputs true true false)
            (sampleModule true false true TELEMETRY_PROVIDER_MSP)).val ∧
        (checkTelemetryState (sampleInputs true true false)
          (sampleModule true false true TELEMETRY_PROVIDER_MSP)).trace = []) ∧
      ((runCalls (checkCalls ([sampleInputs true true false] ++ [sampleInputs true false false]))
          (sampleModule true false true TELEMETRY_PROVIDER_MSP)).state.telemetryEnabled =
          (determineNewTelemetryEnabledState (sampleInputs true false false)
            (sampleModule true false true TELEMETRY_PROVIDER_MSP)).val ∧
        (runCalls (checkCalls ([sampleInputs true true false] ++ [sampleInputs true false false]))
          (sampleModule true false true TELEMETRY_PROVIDER_MSP)).trace = [])) ∧
    (∀ x ∈ (runCalls [(EntryPoint.initTelemetry, sampleInputs false true false),
          (EntryPoint.checkTelemetryState, sampleInputs false true false),
          (EntryPoint.handleTelemetry, sampleInputs false true false),
          (EntryPoint.freeTelemetryPort, sampleInputs false true false),
          (EntryPoint.getTelemetryProviderBaudRate, sampleInputs false true false)]
        (initialModule ⟨TELEMETRY_PROVIDER_MSP, false⟩)).trace,
      x.call = ProviderCall.initMSPTelemetry ∨ x.call = ProviderCall.handleMSPTelemetry) ∧
    (∀ x ∈ (EntryPoint.initTelemetry.run (sampleInputs false true false)
        (initialModule ⟨TELEMETRY_PROVIDER_MSP, false⟩)).trace,
      (x.call = ProviderCall.initMSPTelemetry ∧
        EntryPoint.initTelemetry = EntryPoint.initTelemetry) ∨
      (x.call = ProviderCall.handleMSPTelemetry ∧
        EntryPoint.initTelemetry = EntryPoint.handleTelemetry)) :=
  ⟨⟨((msp_tracks_state_without_port_calls (sampleModule true false true TELEMETRY_PROVIDER_MSP)
        rfl).1 rfl).1 (sampleInputs true true false),
    ((msp_tracks_state_without_port_calls (sampleModule true false true TELEMETRY_PROVIDER_MSP)
        rfl).1 rfl).2 [sampleInputs true true false] (sampleInputs true false false)⟩,
   (msp_tracks_state_without_port_calls (initialModule ⟨TELEMETRY_PROVIDER_MSP, false⟩)
      rfl).2.2.1 _,
   (msp_tracks_state_without_port_calls (initialModule ⟨TELEMETRY_PROVIDER_MSP, false⟩)
      rfl).2.2.2 EntryPoint.initTelemetry (sampleInputs false true false)⟩

/-- From program start with MSP on a dedicated port, one call of each entry
point records exactly the MSP initialize and the MSP handle. -/
theorem msp_program_start_trace :
    calls (runCalls [(EntryPoint.initTelemetry, sampleInputs false true false),
        (EntryPoint.checkTelemetryState, sampleInputs false true false),
        (EntryPoint.handleTelemetry, sampleInputs false true false),
        (EntryPoint.freeTelemetryPort, sampleInputs false true false),
        (EntryPoint.getTelemetryProviderBaudRate, sampleInputs false true false)]
      (initialModule ⟨TELEMETRY_PROVIDER_MSP, false⟩)).trace =
      [ProviderCall.initMSPTelemetry, ProviderCall.handleMSPTelemetry] := by
  decide

end Telemetry
